import Mathlib

/-!
QtOpengl-Tutorial: the six demo widgets as Lean definitions.

The repository holds six small Qt/OpenGL programs, each with one class `OpenGLWidget`
whose methods `initializeGL`, `resizeGL`, `paintGL` (and, for the animated ones,
`updateAnimation`) drive the GPU.  Every demo gets a namespace `Demo01` .. `Demo06` here.

Conventions of the embedding:

* a method is a function from the widget state to the new state together with the list of
  OpenGL calls it issued, in program order (`GLCall`);
* a C++ pointer member is an `Option` (`nullptr` is `none`); dereferencing `nullptr`
  makes the method return `none`;
* what the Qt runtime, the GL driver and the file system decide is passed in as a
  parameter (`ShaderBuild`, `Host`, `QMatrixOps`);
* the vertex tables are lists of rationals, every literal of the sources being a dyadic
  rational that binary32 holds exactly;
* `rotationAngle` is a `float` that only ever holds whole numbers between 0 and 361, on
  which binary32 addition, subtraction and comparison are exact; it is an `Int` here.
-/

set_option linter.dupNamespace false

namespace QtOpenglTutorial

/-! ## Shared vocabulary -/

/-- Value of `sizeof(float)` on the platforms Qt supports. -/
def sizeofFloat : Nat := 4

/-- Value of `sizeof(unsigned int)` on the platforms Qt supports. -/
def sizeofUInt : Nat := 4

/-- One vertex attribute as configured by `setAttributeBuffer(location, GL_FLOAT, offset,
tupleSize, stride)` or `glVertexAttribPointer(location, tupleSize, GL_FLOAT, GL_FALSE,
stride, offset)`; offsets and strides are in bytes. -/
structure VertexAttrib where
  location : Nat
  tupleSize : Nat
  offset : Nat
  stride : Nat
  deriving DecidableEq, Repr

/-- The calls the six widgets make on OpenGL and on the Qt wrappers around it, and
`QWidget::update()`.  Floating-point arguments (clear colours, matrix values) are not
recorded; a texture is named by its slot in the widget; `bindElementBuffer buffer` is
`glBindBuffer(GL_ELEMENT_ARRAY_BUFFER, buffer)`, where buffer name 0 unbinds. -/
inductive GLCall
  | enableDepthTest
  | clearColor
  | clear (color depth : Bool)
  | viewport (w h : Int)
  | programBind
  | programRelease
  | setUniform (name : String)
  | vaoCreate
  | vaoBind
  | vaoRelease
  | vboCreate
  | vboBind
  | vboRelease
  | vboAllocate (bytes : Nat)
  | genBuffers
  | bindElementBuffer (buffer : Nat)
  | elementBufferData (bytes : Nat)
  | enableAttributeArray (location : Nat)
  | attributePointer (a : VertexAttrib)
  | activeTexture (unit : Nat)
  | textureBind (slot : Nat)
  | textureRelease (slot : Nat)
  | drawArrays (first count : Nat)
  | drawElements (count byteOffset : Nat)
  | getError
  | update
  deriving DecidableEq, Repr

/-- Keeps the draw calls (`glDrawArrays`, `glDrawElements`) of a call list. -/
def drawCalls (calls : List GLCall) : List GLCall :=
  calls.filter fun c =>
    match c with
    | .drawArrays _ _ => true
    | .drawElements _ _ => true
    | _ => false

/-- Walks a call list keeping track of the texture slot bound last, and reports for each
`glDrawElements` the slot bound at that moment, the index count and the byte offset. -/
def texturedDraws : Option Nat → List GLCall → List (Option Nat × Nat × Nat)
  | _, [] => []
  | _, .textureBind slot :: rest => texturedDraws (some slot) rest
  | _, .textureRelease _ :: rest => texturedDraws none rest
  | bound, .drawElements count byteOffset :: rest =>
      (bound, count, byteOffset) :: texturedDraws bound rest
  | bound, _ :: rest => texturedDraws bound rest

/-- What the GL driver answers to the three build steps of a shader program. -/
structure ShaderBuild where
  vertexCompiles : Bool
  fragmentCompiles : Bool
  links : Bool
  deriving DecidableEq, Repr

/-- A `QOpenGLShaderProgram` object, reduced to what `isLinked()` reports. -/
structure QOpenGLShaderProgram where
  isLinked : Bool
  deriving DecidableEq, Repr

/-! ### Vertex shader inputs, read off the GLSL source text -/

/-- Value of a decimal digit character. -/
def digitValue (c : Char) : Option Nat :=
  if c.toNat < 48 then none else if c.toNat ≤ 57 then some (c.toNat - 48) else none

/-- Number of whole vertex records in a float array read with the given stride. -/
def vertexCount (vertices : List ℚ) (strideBytes : Nat) : Nat :=
  vertices.length / (strideBytes / sizeofFloat)

/-- The calls `enableAttributeArray(loc)` followed by the pointer set-up, per attribute. -/
def attributeCalls (attribs : List VertexAttrib) : List GLCall :=
  attribs.flatMap fun a => [.enableAttributeArray a.location, .attributePointer a]

/-- The attributes a call list configures, in call order. -/
def configuredAttributes : List GLCall → List VertexAttrib
  | [] => []
  | .attributePointer a :: rest => a :: configuredAttributes rest
  | _ :: rest => configuredAttributes rest

/-- Whether the components of an attribute end inside one vertex record:
`offset + tupleSize * sizeof(float) <= stride`. -/
def VertexAttrib.fits (a : VertexAttrib) : Bool :=
  a.offset + a.tupleSize * sizeofFloat ≤ a.stride

/-- The positions of the index buffer that
`glDrawElements(GL_TRIANGLES, count, GL_UNSIGNED_INT, byteOffset)` reads. -/
def elementRange (count byteOffset : Nat) : List Nat :=
  List.range' (byteOffset / sizeofUInt) count

/-- An RGB colour as passed to `QColor(r, g, b)`. -/
structure QColor where
  red : Nat
  green : Nat
  blue : Nat
  deriving DecidableEq, Repr

/-- A `QImage`: its pixel rows from top to bottom; the null image has no rows. -/
structure QImage where
  rows : List (List QColor)
  deriving DecidableEq, Repr

/-- The method `QImage::isNull`. -/
def QImage.isNull (image : QImage) : Bool := image.rows.isEmpty

/-- An image of the given size after `fill(color)`. -/
def QImage.filled (width height : Nat) (color : QColor) : QImage :=
  ⟨List.replicate height (List.replicate width color)⟩

/-- The method `QImage::mirrored(horizontal, vertical)`. -/
def QImage.mirrored (image : QImage) (horizontal vertical : Bool) : QImage :=
  let rows := if vertical then image.rows.reverse else image.rows
  ⟨if horizontal then rows.map List.reverse else rows⟩

/-- The enum `QOpenGLTexture::Filter`, as far as the demos use it. -/
inductive Filter
  | Nearest
  | Linear
  | LinearMipMapLinear
  deriving DecidableEq, Repr

/-- The enum `QOpenGLTexture::WrapMode`, as far as the demos use it. -/
inductive WrapMode
  | Repeat
  deriving DecidableEq, Repr

/-- The enum `QOpenGLTexture::CoordinateDirection`, as far as the demos use it. -/
inductive CoordinateDirection
  | DirectionS
  | DirectionT
  deriving DecidableEq, Repr

/-- A method call on a `QOpenGLTexture`.  `setData` stands both for the method and for the
constructor taking a `QImage`. -/
inductive TextureCall
  | setData (image : QImage)
  | setMinificationFilter (filter : Filter)
  | setMagnificationFilter (filter : Filter)
  | setWrapMode (mode : WrapMode)
  | setWrapModeIn (direction : CoordinateDirection) (mode : WrapMode)
  | generateMipMaps
  deriving DecidableEq, Repr

/-- A `QOpenGLTexture` object: the calls made on it so far, oldest first. -/
structure QOpenGLTexture where
  calls : List TextureCall
  deriving DecidableEq, Repr

/-- Appends one call to the history of a texture. -/
def QOpenGLTexture.call (t : QOpenGLTexture) (c : TextureCall) : QOpenGLTexture :=
  ⟨t.calls ++ [c]⟩

/-- What the process environment supplies: the directory of the executable, the working
directory, the outcome of decoding the file at a path (return value of `QImage::load` and
the image it leaves), and the text rasteriser behind `QPainter::drawText`. -/
structure Host where
  applicationDirPath : String
  currentPath : String
  decode : String → Bool × QImage
  drawText : QImage → String → QImage

/-- Whether a path starts at the root or names a Qt resource (`:/...`); such a path does
not depend on the working directory. -/
def isAbsolutePath (path : String) : Bool :=
  match path.toList with
  | '/' :: _ => true
  | ':' :: _ => true
  | _ => false

/-- The method `QDir(dir).filePath(fileName)`: an absolute `fileName` is returned as it is,
a relative one is put behind `dir`. -/
def QDir.filePath (dir fileName : String) : String :=
  if isAbsolutePath fileName then fileName else dir ++ "/" ++ fileName

/-- The method `QImage::load(fileName)`: a relative name is looked up from the working
directory of the process. -/
def QImage.load (host : Host) (fileName : String) : Bool × QImage :=
  host.decode (QDir.filePath host.currentPath fileName)

/-! ### Matrices and the aspect quotient -/

/-- Outcome of the binary32 division `float(w) / float(h)` of two `int`s under IEEE 754:
a finite quotient when `h` is not zero, an infinity when only `h` is zero, NaN for `0/0`.
No case raises a signal. -/
inductive FloatQuot
  | finite (num den : Int)
  | infinite (negative : Bool)
  | nan
  deriving DecidableEq, Repr

/-- The expression `float(w) / float(h)`. -/
def floatDiv (w h : Int) : FloatQuot :=
  if h = 0 then (if w = 0 then .nan else .infinite (decide (w < 0))) else .finite w h

/-- Whether a quotient came out of a division by zero. -/
def FloatQuot.dividedByZero : FloatQuot → Bool
  | .finite _ _ => false
  | .infinite _ => true
  | .nan => true

/-- The methods of `QMatrix4x4` the demos call, over a type `M` of matrix values:
`setToIdentity`, `perspective(angle, aspect, near, far)`, `translate(x, y, z)`,
`rotate(angle, x, y, z)` and `lookAt(eye, center, up)`.  Each takes the matrix it is
called on first. -/
structure QMatrixOps (M : Type) where
  identity : M
  perspective : M → ℚ → FloatQuot → ℚ → ℚ → M
  translate : M → ℚ → ℚ → ℚ → M
  rotate : M → ℚ → ℚ → ℚ → ℚ → M
  lookAt : M → ℚ × ℚ × ℚ → ℚ × ℚ × ℚ → ℚ × ℚ × ℚ → M

/-- A `QMatrix4x4` value kept as the expression that built it; the carrier used when a
widget is run on concrete inputs. -/
inductive MatrixExpr
  | identity
  | perspective (m : MatrixExpr) (angle : ℚ) (aspect : FloatQuot) (nearPlane farPlane : ℚ)
  | translate (m : MatrixExpr) (x y z : ℚ)
  | rotate (m : MatrixExpr) (angle x y z : ℚ)
  | lookAt (m : MatrixExpr) (eye center up : ℚ × ℚ × ℚ)
  deriving DecidableEq

/-- The matrix methods acting on expressions. -/
def symbolicOps : QMatrixOps MatrixExpr :=
  ⟨.identity, .perspective, .translate, .rotate, .lookAt⟩

/-- The near-plane argument `0.1f` of the three `perspective` calls.  One tenth is not a
binary fraction: the `float` the literal denotes is the nearest binary32 value,
13421773 / 2^27.  (The other arguments, `45.0f` and `100.0f`, are exact.) -/
def nearPlane : ℚ := 13421773 / 134217728

/-- Matrix values with rational entries: a carrier with more than one matrix in it. -/
abbrev RatMatrix : Type := Matrix (Fin 4) (Fin 4) ℚ

/-- The three build steps all succeeding. -/
def ShaderBuild.success : ShaderBuild := ⟨true, true, true⟩

/-- Whether all three build steps succeed. -/
def ShaderBuild.ok (build : ShaderBuild) : Bool :=
  build.vertexCompiles && build.fragmentCompiles && build.links

/-- What the Qt event loop delivers to an animated widget after start-up. -/
inductive Event
  | tick
  | paint
  | resize (w h : Int)
  deriving DecidableEq, Repr

/-- An environment without any image file; the text rasteriser leaves the image as it is. -/
def emptyHost : Host :=
  ⟨"/app", "/", fun _ => (false, ⟨[]⟩), fun image _ => image⟩

/-! ## Demo 01: coloured triangle (`01_ColoredTriangle/openglwidget.cpp`) -/

namespace Demo01

/-- The array `vertices`: 3 records of position (3) and colour (3). -/
def vertices : List ℚ := [
  0.0,  0.5, 0.0,   1.0, 0.0, 0.0,
  -0.5, -0.5, 0.0,  0.0, 1.0, 0.0,
  0.5, -0.5, 0.0,   0.0, 0.0, 1.0]

/-- The local `stride` of `initializeGL`: `6 * sizeof(float)`. -/
def stride : Nat := 6 * sizeofFloat

/-- The two `setAttributeBuffer` calls of `initializeGL`. -/
def attributes : List VertexAttrib :=
  [⟨0, 3, 0, stride⟩, ⟨1, 3, 3 * sizeofFloat, stride⟩]

/-- The members of `OpenGLWidget`: `program`, and whether `vao` and `vbo` were created. -/
structure OpenGLWidget where
  program : Option QOpenGLShaderProgram
  vao : Bool
  vbo : Bool
  deriving DecidableEq, Repr

/-- The constructor; `program` has the in-class initialiser `nullptr`. -/
def OpenGLWidget.OpenGLWidget : OpenGLWidget := ⟨none, false, false⟩

/-- The method `initializeGL`: builds the program and returns early when a build step
fails; otherwise creates the buffers and configures the attributes. -/
def initializeGL (build : ShaderBuild) (s : OpenGLWidget) : OpenGLWidget × List GLCall :=
  if !build.vertexCompiles || !build.fragmentCompiles || !build.links then
    ({ s with program := some ⟨false⟩ }, [.clearColor])
  else
    ({ program := some ⟨true⟩, vao := true, vbo := true },
      [.clearColor, .vaoCreate, .vaoBind, .vboCreate, .vboBind,
        .vboAllocate (vertices.length * sizeofFloat), .programBind]
      ++ attributeCalls attributes
      ++ [.programRelease, .vboRelease, .vaoRelease])

/-- The method `paintGL`: no test of the program state precedes the draw. -/
def paintGL (s : OpenGLWidget) : Option (OpenGLWidget × List GLCall) :=
  match s.program with
  | none => none
  | some _ =>
    some (s, [.clear true false, .programBind, .vaoBind, .drawArrays 0 3,
      .programRelease, .vaoRelease])

/-- The method `resizeGL`. -/
def resizeGL (w h : Int) (s : OpenGLWidget) : OpenGLWidget × List GLCall :=
  (s, [.viewport w h])

end Demo01

/-! ## Demo 02: indexed quad (`02_IndexedQuad/openglwidget.cpp`) -/

namespace Demo02

/-- The array `vertices`: 4 records of position (3) and colour (3). -/
def vertices : List ℚ := [
  -0.5,  0.5, 0.0,   1.0, 0.0, 0.0,
  -0.5, -0.5, 0.0,   0.0, 1.0, 0.0,
  0.5, -0.5, 0.0,    0.0, 0.0, 1.0,
  0.5,  0.5, 0.0,    1.0, 1.0, 0.0]

/-- The array `indices`. -/
def indices : List Nat := [
  0, 1, 2,
  2, 3, 0]

/-- The local `stride` of `initializeGL`: `6 * sizeof(float)`. -/
def stride : Nat := 6 * sizeofFloat

/-- The two `setAttributeBuffer` calls of `initializeGL`. -/
def attributes : List VertexAttrib :=
  [⟨0, 3, 0, stride⟩, ⟨1, 3, 3 * sizeofFloat, stride⟩]

/-- The members of `OpenGLWidget`; `ebo` is the raw buffer name, 0 before creation. -/
structure OpenGLWidget where
  program : Option QOpenGLShaderProgram
  vao : Bool
  vbo : Bool
  ebo : Nat
  deriving DecidableEq, Repr

/-- The constructor, with the in-class initialisers of the header. -/
def OpenGLWidget.OpenGLWidget : OpenGLWidget := ⟨none, false, false, 0⟩

/-- The method `initializeGL`; `eboName` is the name `glGenBuffers` hands out. -/
def initializeGL (build : ShaderBuild) (eboName : Nat) (s : OpenGLWidget) :
    OpenGLWidget × List GLCall :=
  if !build.vertexCompiles || !build.fragmentCompiles || !build.links then
    ({ s with program := some ⟨false⟩ }, [.clearColor])
  else
    ({ program := some ⟨true⟩, vao := true, vbo := true, ebo := eboName },
      [.clearColor, .vaoCreate, .vaoBind, .vboCreate, .vboBind,
        .vboAllocate (vertices.length * sizeofFloat),
        .genBuffers, .bindElementBuffer eboName,
        .elementBufferData (indices.length * sizeofUInt), .programBind]
      ++ attributeCalls attributes
      ++ [.programRelease, .vboRelease, .bindElementBuffer 0, .vaoRelease])

/-- The method `paintGL`: no test of the program state precedes the draw; the element
buffer bound is the member `ebo`, which is still 0 when `initializeGL` returned early. -/
def paintGL (s : OpenGLWidget) : Option (OpenGLWidget × List GLCall) :=
  match s.program with
  | none => none
  | some _ =>
    some (s, [.clear true false, .programBind, .vaoBind, .bindElementBuffer s.ebo,
      .drawElements 6 0, .bindElementBuffer 0, .programRelease, .vaoRelease])

/-- The method `resizeGL`. -/
def resizeGL (w h : Int) (s : OpenGLWidget) : OpenGLWidget × List GLCall :=
  (s, [.viewport w h])

end Demo02

/-! ## Demo 03: textured quad (`03_TexturedQuad/openglwidget.cpp`) -/

namespace Demo03

/-- The constant `TARGET_IMAGE_NAME`. -/
def TARGET_IMAGE_NAME : String := "texture.png"

/-- The array `vertices`: 4 records of position (3) and texture coordinate (2). -/
def vertices : List ℚ := [
  0.5,  0.5, 0.0,   1.0, 1.0,
  0.5, -0.5, 0.0,   1.0, 0.0,
  -0.5, -0.5, 0.0,  0.0, 0.0,
  -0.5,  0.5, 0.0,  0.0, 1.0]

/-- The array `indices`. -/
def indices : List Nat := [
  0, 1, 3,
  1, 2, 3]

/-- The local `stride` of `initializeGL`: `5 * sizeof(float)`. -/
def stride : Nat := 5 * sizeofFloat

/-- The two `setAttributeBuffer` calls of `initializeGL`. -/
def attributes : List VertexAttrib :=
  [⟨0, 3, 0, stride⟩, ⟨2, 2, 3 * sizeofFloat, stride⟩]

/-- The members of `OpenGLWidget`. -/
structure OpenGLWidget where
  program : Option QOpenGLShaderProgram
  vao : Bool
  vbo : Bool
  ebo : Nat
  texture : Option QOpenGLTexture
  deriving DecidableEq, Repr

/-- The constructor: `ebo(0), texture(nullptr)`. -/
def OpenGLWidget.OpenGLWidget : OpenGLWidget := ⟨none, false, false, 0, none⟩

/-- The local `tileSize` of `loadTexture`. -/
def tileSize : Nat := 16

/-- The colour `loadTexture` gives the pixel `(x, y)` of the checkerboard. -/
def checkerboardColor (x y : Nat) : QColor :=
  let isDark := xor ((x / tileSize) % 2 == 0) ((y / tileSize) % 2 == 0)
  if isDark then ⟨50, 50, 50⟩ else ⟨200, 200, 200⟩

/-- The image `checkerboardImage` after the two `setPixel` loops. -/
def checkerboardImage : QImage :=
  ⟨(List.range 128).map fun y => (List.range 128).map fun x => checkerboardColor x y⟩

/-- The method `loadTexture`. -/
def loadTexture (host : Host) (relativePath : String) (s : OpenGLWidget) : OpenGLWidget :=
  let absolutePath := QDir.filePath host.applicationDirPath relativePath
  let s := if s.texture.isSome then { s with texture := none } else s
  let (loaded, image) := QImage.load host absolutePath
  let texture : Option QOpenGLTexture :=
    if loaded && !image.isNull then
      some ⟨[.setData (image.mirrored false true)]⟩
    else
      some ⟨[.setData (checkerboardImage.mirrored false true)]⟩
  let s := { s with texture := texture }
  match s.texture with
  | some t =>
    { s with texture := some (((t.call (.setMinificationFilter .Nearest)).call
        (.setMagnificationFilter .Linear)).call (.setWrapMode .Repeat)) }
  | none => s

/-- The method `initializeGL`. -/
def initializeGL (build : ShaderBuild) (host : Host) (eboName : Nat) (s : OpenGLWidget) :
    OpenGLWidget × List GLCall :=
  if !build.vertexCompiles || !build.fragmentCompiles || !build.links then
    ({ s with program := some ⟨false⟩ }, [.clearColor])
  else
    let s := { s with program := some ⟨true⟩, vao := true, vbo := true, ebo := eboName }
    (loadTexture host TARGET_IMAGE_NAME s,
      [.clearColor, .vaoCreate, .vaoBind, .vboCreate, .vboBind,
        .vboAllocate (vertices.length * sizeofFloat),
        .genBuffers, .bindElementBuffer eboName,
        .elementBufferData (indices.length * sizeofUInt), .programBind]
      ++ attributeCalls attributes
      ++ [.setUniform "ourTexture", .programRelease, .vboRelease, .bindElementBuffer 0,
        .vaoRelease])

/-- The method `paintGL`: no test of the program state precedes the draw; the element
buffer bound is the member `ebo`, which is still 0 when `initializeGL` returned early. -/
def paintGL (s : OpenGLWidget) : Option (OpenGLWidget × List GLCall) :=
  match s.program with
  | none => none
  | some _ =>
    some (s, [.clear true false, .programBind, .vaoBind]
      ++ (if s.texture.isSome then [.textureBind 0] else [])
      ++ [.bindElementBuffer s.ebo, .drawElements 6 0, .bindElementBuffer 0]
      ++ (if s.texture.isSome then [.textureRelease 0] else [])
      ++ [.programRelease, .vaoRelease])

/-- The method `resizeGL`. -/
def resizeGL (w h : Int) (s : OpenGLWidget) : OpenGLWidget × List GLCall :=
  (s, [.viewport w h])

end Demo03

/-! ## Demo 04: rotating cube with `glDrawArrays` (`04_3DCube_DrawArrays/openglwidget.cpp`) -/

namespace Demo04

/-- The array `vertices`: 36 records of position (3) and colour (3). -/
def vertices : List ℚ := [
  -0.5, -0.5, 0.5, 1.0, 0.0, 0.0,
  0.5, -0.5, 0.5, 0.0, 1.0, 0.0,
  0.5, 0.5, 0.5, 0.0, 0.0, 1.0,
  0.5, 0.5, 0.5, 0.0, 0.0, 1.0,
  -0.5, 0.5, 0.5, 1.0, 1.0, 0.0,
  -0.5, -0.5, 0.5, 1.0, 0.0, 0.0,
  0.5, -0.5, -0.5, 0.0, 1.0, 1.0,
  -0.5, -0.5, -0.5, 1.0, 0.0, 1.0,
  -0.5, 0.5, -0.5, 1.0, 0.5, 0.0,
  -0.5, 0.5, -0.5, 1.0, 0.5, 0.0,
  0.5, 0.5, -0.5, 0.5, 0.5, 0.5,
  0.5, -0.5, -0.5, 0.0, 1.0, 1.0,
  0.5, -0.5, 0.5, 0.0, 1.0, 0.0,
  0.5, -0.5, -0.5, 0.0, 1.0, 1.0,
  0.5, 0.5, -0.5, 0.5, 0.5, 0.5,
  0.5, 0.5, -0.5, 0.5, 0.5, 0.5,
  0.5, 0.5, 0.5, 0.0, 0.0, 1.0,
  0.5, -0.5, 0.5, 0.0, 1.0, 0.0,
  -0.5, -0.5, -0.5, 1.0, 0.0, 1.0,
  -0.5, -0.5, 0.5, 1.0, 0.0, 0.0,
  -0.5, 0.5, 0.5, 1.0, 1.0, 0.0,
  -0.5, 0.5, 0.5, 1.0, 1.0, 0.0,
  -0.5, 0.5, -0.5, 1.0, 0.5, 0.0,
  -0.5, -0.5, -0.5, 1.0, 0.0, 1.0,
  -0.5, 0.5, 0.5, 1.0, 1.0, 0.0,
  0.5, 0.5, 0.5, 0.0, 0.0, 1.0,
  0.5, 0.5, -0.5, 0.5, 0.5, 0.5,
  0.5, 0.5, -0.5, 0.5, 0.5, 0.5,
  -0.5, 0.5, -0.5, 1.0, 0.5, 0.0,
  -0.5, 0.5, 0.5, 1.0, 1.0, 0.0,
  -0.5, -0.5, -0.5, 1.0, 0.0, 1.0,
  0.5, -0.5, -0.5, 0.0, 1.0, 1.0,
  0.5, -0.5, 0.5, 0.0, 1.0, 0.0,
  0.5, -0.5, 0.5, 0.0, 1.0, 0.0,
  -0.5, -0.5, 0.5, 1.0, 0.0, 0.0,
  -0.5, -0.5, -0.5, 1.0, 0.0, 1.0]

/-- The stride both `setAttributeBuffer` calls pass: `6 * sizeof(float)`. -/
def stride : Nat := 6 * sizeofFloat

/-- The two `setAttributeBuffer` calls of `setupCubeData`. -/
def attributes : List VertexAttrib :=
  [⟨0, 3, 0, stride⟩, ⟨1, 3, 3 * sizeofFloat, stride⟩]

/-- The members of `OpenGLWidget`; `timerActive` tells whether `animationTimer` runs. -/
structure OpenGLWidget (M : Type) where
  program : Option QOpenGLShaderProgram
  vao : Bool
  vbo : Bool
  timerActive : Bool
  projection : M
  view : M
  model : M
  rotationAngle : Int

/-- The constructor: `program(nullptr), rotationAngle(0.0f)`; the timer is created but
not started, the matrices are default-constructed. -/
def OpenGLWidget.OpenGLWidget {M : Type} (ops : QMatrixOps M) : OpenGLWidget M :=
  { program := none, vao := false, vbo := false, timerActive := false,
    projection := ops.identity, view := ops.identity, model := ops.identity,
    rotationAngle := 0 }

/-- The method `setupShaders`: each failing build step returns at once, so the program is
linked only when all three succeed. -/
def setupShaders {M : Type} (build : ShaderBuild) (s : OpenGLWidget M) : OpenGLWidget M :=
  if !build.vertexCompiles then { s with program := some ⟨false⟩ }
  else if !build.fragmentCompiles then { s with program := some ⟨false⟩ }
  else if !build.links then { s with program := some ⟨false⟩ }
  else { s with program := some ⟨true⟩ }

/-- The method `setupCubeData`, called right after `setupShaders` has assigned `program`. -/
def setupCubeData {M : Type} (s : OpenGLWidget M) : OpenGLWidget M × List GLCall :=
  ({ s with vao := true, vbo := true },
    [.programBind, .vaoCreate, .vaoBind, .vboCreate, .vboBind,
      .vboAllocate (vertices.length * sizeofFloat)]
    ++ attributeCalls attributes
    ++ [.vaoRelease, .programRelease])

/-- The method `initializeGL`. -/
def initializeGL {M : Type} (build : ShaderBuild) (s : OpenGLWidget M) :
    OpenGLWidget M × List GLCall :=
  let s := setupShaders build s
  let (s, calls) := setupCubeData s
  ({ s with timerActive := true }, [.enableDepthTest] ++ calls)

/-- The method `resizeGL`. -/
def resizeGL {M : Type} (ops : QMatrixOps M) (w h : Int) (s : OpenGLWidget M) :
    OpenGLWidget M × List GLCall :=
  ({ s with projection := ops.perspective ops.identity 45.0 (floatDiv w h) nearPlane 100.0 },
    [.viewport w h])

/-- The method `paintGL`: skips the frame unless the program is there and linked; a frame
that is drawn also advances `rotationAngle`. -/
def paintGL {M : Type} (ops : QMatrixOps M) (s : OpenGLWidget M) :
    OpenGLWidget M × List GLCall :=
  match s.program with
  | none => (s, [.clearColor, .clear true true])
  | some program =>
    if !program.isLinked then (s, [.clearColor, .clear true true])
    else
      let view := ops.translate ops.identity 0.0 0.0 (-3.0)
      let model := ops.rotate ops.identity s.rotationAngle 0.5 1.0 0.0
      let rotationAngle := s.rotationAngle + 1
      let rotationAngle := if rotationAngle ≥ 360 then 0 else rotationAngle
      ({ s with view := view, model := model, rotationAngle := rotationAngle },
        [.clearColor, .clear true true, .programBind, .vaoBind,
          .setUniform "projection", .setUniform "view", .setUniform "model",
          .drawArrays 0 36, .getError, .vaoRelease, .programRelease])

/-- The slot `updateAnimation`: only `update()`. -/
def updateAnimation {M : Type} (s : OpenGLWidget M) : OpenGLWidget M × List GLCall :=
  (s, [.update])

/-- One event of the Qt loop applied to the widget. -/
def step {M : Type} (ops : QMatrixOps M) (e : Event) (s : OpenGLWidget M) : OpenGLWidget M :=
  match e with
  | .tick => (updateAnimation s).1
  | .paint => (paintGL ops s).1
  | .resize w h => (resizeGL ops w h s).1

/-- A sequence of events applied in order. -/
def run {M : Type} (ops : QMatrixOps M) : List Event → OpenGLWidget M → OpenGLWidget M
  | [], s => s
  | e :: es, s => run ops es (step ops e s)

end Demo04

/-! ## Demo 05: rotating cube with `glDrawElements` (`05_3DCube_DrawElements/openglwidget.cpp`) -/

namespace Demo05

/-- The array `vertices`: 8 records of position (3) and colour (3). -/
def vertices : List ℚ := [
  -0.5, -0.5, 0.5, 1.0, 0.0, 0.0,
  0.5, -0.5, 0.5, 0.0, 1.0, 0.0,
  0.5, 0.5, 0.5, 0.0, 0.0, 1.0,
  -0.5, 0.5, 0.5, 1.0, 1.0, 0.0,
  -0.5, -0.5, -0.5, 1.0, 0.0, 1.0,
  0.5, -0.5, -0.5, 0.0, 1.0, 1.0,
  0.5, 0.5, -0.5, 0.5, 0.5, 0.5,
  -0.5, 0.5, -0.5, 1.0, 0.5, 0.0]

/-- The array `indices`: 12 triangles. -/
def indices : List Nat := [
  0, 1, 2, 0, 2, 3,
  5, 4, 7, 5, 7, 6,
  1, 5, 6, 1, 6, 2,
  4, 0, 3, 4, 3, 7,
  3, 2, 6, 3, 6, 7,
  4, 5, 1, 4, 1, 0]

/-- The stride both `setAttributeBuffer` calls pass: `6 * sizeof(float)`. -/
def stride : Nat := 6 * sizeofFloat

/-- The two `setAttributeBuffer` calls of `setupCubeData`. -/
def attributes : List VertexAttrib :=
  [⟨0, 3, 0, stride⟩, ⟨1, 3, 3 * sizeofFloat, stride⟩]

/-- The members of `OpenGLWidget`; `timerActive` tells whether `animationTimer` runs. -/
structure OpenGLWidget (M : Type) where
  program : Option QOpenGLShaderProgram
  vao : Bool
  vbo : Bool
  ebo : Nat
  timerActive : Bool
  projection : M
  view : M
  model : M
  rotationAngle : Int

/-- The constructor: `program(nullptr), rotationAngle(0.0f)`, `ebo(0)`; the timer is created but
not started, the matrices are default-constructed. -/
def OpenGLWidget.OpenGLWidget {M : Type} (ops : QMatrixOps M) : OpenGLWidget M :=
  { program := none, vao := false, vbo := false, ebo := 0, timerActive := false,
    projection := ops.identity, view := ops.identity, model := ops.identity,
    rotationAngle := 0 }

/-- The method `setupShaders`: each failing build step returns at once, so the program is
linked only when all three succeed. -/
def setupShaders {M : Type} (build : ShaderBuild) (s : OpenGLWidget M) : OpenGLWidget M :=
  if !build.vertexCompiles then { s with program := some ⟨false⟩ }
  else if !build.fragmentCompiles then { s with program := some ⟨false⟩ }
  else if !build.links then { s with program := some ⟨false⟩ }
  else { s with program := some ⟨true⟩ }

/-- The method `setupCubeData`, called right after `setupShaders` has assigned `program`. -/
def setupCubeData {M : Type} (eboName : Nat) (s : OpenGLWidget M) : OpenGLWidget M × List GLCall :=
  ({ s with vao := true, vbo := true , ebo := eboName },
    [.programBind, .vaoCreate, .vaoBind, .vboCreate, .vboBind,
      .vboAllocate (vertices.length * sizeofFloat),
      .genBuffers, .bindElementBuffer eboName,
      .elementBufferData (indices.length * sizeofUInt)]
    ++ attributeCalls attributes
    ++ [.vaoRelease, .programRelease])

/-- The method `initializeGL`. -/
def initializeGL {M : Type} (build : ShaderBuild) (eboName : Nat) (s : OpenGLWidget M) :
    OpenGLWidget M × List GLCall :=
  let s := setupShaders build s
  let (s, calls) := setupCubeData eboName s
  ({ s with timerActive := true }, [.enableDepthTest] ++ calls)

/-- The method `resizeGL`. -/
def resizeGL {M : Type} (ops : QMatrixOps M) (w h : Int) (s : OpenGLWidget M) :
    OpenGLWidget M × List GLCall :=
  ({ s with projection := ops.perspective ops.identity 45.0 (floatDiv w h) nearPlane 100.0 },
    [.viewport w h])

/-- The method `paintGL`: skips the frame unless the program is there and linked; a frame
that is drawn also advances `rotationAngle`. -/
def paintGL {M : Type} (ops : QMatrixOps M) (s : OpenGLWidget M) :
    OpenGLWidget M × List GLCall :=
  match s.program with
  | none => (s, [.clearColor, .clear true true])
  | some program =>
    if !program.isLinked then (s, [.clearColor, .clear true true])
    else
      let view := ops.translate ops.identity 0.0 0.0 (-3.0)
      let model := ops.rotate ops.identity s.rotationAngle 0.5 1.0 0.0
      let rotationAngle := s.rotationAngle + 1
      let rotationAngle := if rotationAngle ≥ 360 then 0 else rotationAngle
      ({ s with view := view, model := model, rotationAngle := rotationAngle },
        [.clearColor, .clear true true, .programBind, .vaoBind,
          .setUniform "projection", .setUniform "view", .setUniform "model",
          .drawElements 36 0, .getError, .vaoRelease, .programRelease])

/-- The slot `updateAnimation`: only `update()`. -/
def updateAnimation {M : Type} (s : OpenGLWidget M) : OpenGLWidget M × List GLCall :=
  (s, [.update])

/-- One event of the Qt loop applied to the widget. -/
def step {M : Type} (ops : QMatrixOps M) (e : Event) (s : OpenGLWidget M) : OpenGLWidget M :=
  match e with
  | .tick => (updateAnimation s).1
  | .paint => (paintGL ops s).1
  | .resize w h => (resizeGL ops w h s).1

/-- A sequence of events applied in order. -/
def run {M : Type} (ops : QMatrixOps M) : List Event → OpenGLWidget M → OpenGLWidget M
  | [], s => s
  | e :: es, s => run ops es (step ops e s)

end Demo05

/-! ## Demo 06: textured dice cube (`06_3D_TexturedCube/openglwidget.cpp`) -/

namespace Demo06

/-- The array `cubeVertices`: 24 records of position (3) and texture coordinate (2), four
per face, in the order +Z, -Z, +Y, -Y, +X, -X. -/
def cubeVertices : List ℚ := [
  -0.5, -0.5, 0.5, 0.0, 0.0,
  0.5, -0.5, 0.5, 1.0, 0.0,
  0.5, 0.5, 0.5, 1.0, 1.0,
  -0.5, 0.5, 0.5, 0.0, 1.0,
  -0.5, -0.5, -0.5, 1.0, 0.0,
  0.5, -0.5, -0.5, 0.0, 0.0,
  0.5, 0.5, -0.5, 0.0, 1.0,
  -0.5, 0.5, -0.5, 1.0, 1.0,
  -0.5, 0.5, 0.5, 0.0, 0.0,
  0.5, 0.5, 0.5, 1.0, 0.0,
  0.5, 0.5, -0.5, 1.0, 1.0,
  -0.5, 0.5, -0.5, 0.0, 1.0,
  -0.5, -0.5, -0.5, 0.0, 0.0,
  0.5, -0.5, -0.5, 1.0, 0.0,
  0.5, -0.5, 0.5, 1.0, 1.0,
  -0.5, -0.5, 0.5, 0.0, 1.0,
  0.5, -0.5, 0.5, 0.0, 0.0,
  0.5, -0.5, -0.5, 1.0, 0.0,
  0.5, 0.5, -0.5, 1.0, 1.0,
  0.5, 0.5, 0.5, 0.0, 1.0,
  -0.5, -0.5, -0.5, 0.0, 0.0,
  -0.5, -0.5, 0.5, 1.0, 0.0,
  -0.5, 0.5, 0.5, 1.0, 1.0,
  -0.5, 0.5, -0.5, 0.0, 1.0]

/-- The array `cubeIndices`: 6 faces, 6 indices per face. -/
def cubeIndices : List Nat := [
  0, 1, 2,
  2, 3, 0,
  4, 5, 6,
  6, 7, 4,
  8, 9, 10,
  10, 11, 8,
  12, 13, 14,
  14, 15, 12,
  16, 17, 18,
  18, 19, 16,
  20, 21, 22,
  22, 23, 20]

/-- The stride both `glVertexAttribPointer` calls pass: `5 * sizeof(float)`. -/
def stride : Nat := 5 * sizeofFloat

/-- The two `glVertexAttribPointer` calls of `setupCubeData`. -/
def attributes : List VertexAttrib :=
  [⟨0, 3, 0, stride⟩, ⟨1, 2, 3 * sizeofFloat, stride⟩]

/-- The members of `OpenGLWidget`; `textures` is the array of six pointers. -/
structure OpenGLWidget (M : Type) where
  program : Option QOpenGLShaderProgram
  vao : Bool
  vbo : Bool
  ebo : Nat
  textures : List (Option QOpenGLTexture)
  view : M
  projection : M
  model : M
  rotationAngle : Int
  timerActive : Bool

/-- The constructor: `rotationAngle(0.0f)`, the six texture pointers set to `nullptr`, the
timer created and started. -/
def OpenGLWidget.OpenGLWidget {M : Type} (ops : QMatrixOps M) : OpenGLWidget M :=
  { program := none, vao := false, vbo := false, ebo := 0,
    textures := List.replicate 6 none,
    view := ops.identity, projection := ops.identity, model := ops.identity,
    rotationAngle := 0, timerActive := true }

/-- The method `setupShaders`: the failures are logged and the build goes on, so `link()`
is called whatever the compile steps answered. -/
def setupShaders {M : Type} (build : ShaderBuild) (s : OpenGLWidget M) : OpenGLWidget M :=
  { s with program := some ⟨build.links⟩ }

/-- The method `setupCubeData`, called right after `setupShaders` has assigned `program`. -/
def setupCubeData {M : Type} (eboName : Nat) (s : OpenGLWidget M) :
    OpenGLWidget M × List GLCall :=
  ({ s with vao := true, vbo := true, ebo := eboName },
    [.vaoCreate, .vaoBind, .vboCreate, .vboBind,
      .vboAllocate (cubeVertices.length * sizeofFloat),
      .genBuffers, .bindElementBuffer eboName,
      .elementBufferData (cubeIndices.length * sizeofUInt)]
    ++ attributeCalls attributes
    ++ [.vaoRelease, .vboRelease])

/-- The method `loadSingleTextureOrFallback`; the result is the pointer it returns. -/
def loadSingleTextureOrFallback (host : Host) (filePath fallbackText : String) :
    Option QOpenGLTexture :=
  let newTexture : QOpenGLTexture := ⟨[]⟩
  let (loaded, image) := QImage.load host filePath
  let newTexture :=
    if loaded then
      let image := image.mirrored false true
      newTexture.call (.setData image)
    else
      let size := 256
      let fallbackImage := QImage.filled size size ⟨240, 240, 240⟩
      let fallbackImage := host.drawText fallbackImage fallbackText
      newTexture.call (.setData (fallbackImage.mirrored false true))
  let newTexture := newTexture.call (.setMinificationFilter .LinearMipMapLinear)
  let newTexture := newTexture.call (.setMagnificationFilter .Linear)
  let newTexture := newTexture.call (.setWrapModeIn .DirectionS .Repeat)
  let newTexture := newTexture.call (.setWrapModeIn .DirectionT .Repeat)
  let newTexture := newTexture.call .generateMipMaps
  some newTexture

/-- The method `loadTextures`. -/
def loadTextures {M : Type} (host : Host) (s : OpenGLWidget M) : OpenGLWidget M :=
  { s with textures := [
      loadSingleTextureOrFallback host "textures/dice_face_1.png" "1",
      loadSingleTextureOrFallback host "textures/dice_face_6.png" "6",
      loadSingleTextureOrFallback host "textures/dice_face_5.png" "5",
      loadSingleTextureOrFallback host "textures/dice_face_2.png" "2",
      loadSingleTextureOrFallback host "textures/dice_face_3.png" "3",
      loadSingleTextureOrFallback host "textures/dice_face_4.png" "4"] }

/-- The method `initializeGL`. -/
def initializeGL {M : Type} (build : ShaderBuild) (host : Host) (eboName : Nat)
    (s : OpenGLWidget M) : OpenGLWidget M × List GLCall :=
  let s := setupShaders build s
  let (s, calls) := setupCubeData eboName s
  (loadTextures host s, [.enableDepthTest, .clearColor] ++ calls)

/-- The method `resizeGL`. -/
def resizeGL {M : Type} (ops : QMatrixOps M) (w h : Int) (s : OpenGLWidget M) :
    OpenGLWidget M × List GLCall :=
  ({ s with projection := ops.perspective ops.identity 45.0 (floatDiv w h) nearPlane 100.0 }, [])

/-- The body of the `for` loop of `paintGL` for face `i`. -/
def drawFace (textures : List (Option QOpenGLTexture)) (i : Nat) : List GLCall :=
  if (textures.getD i none).isSome then
    [.activeTexture 0, .textureBind i, .setUniform "textureSampler",
      .drawElements 6 (i * 6 * sizeofUInt), .textureRelease i]
  else []

/-- The method `paintGL`: no test of the program state precedes the draws, and
`rotationAngle` is only read. -/
def paintGL {M : Type} (ops : QMatrixOps M) (s : OpenGLWidget M) :
    Option (OpenGLWidget M × List GLCall) :=
  match s.program with
  | none => none
  | some _ =>
    let view := ops.lookAt ops.identity (0.0, 0.0, 3.0) (0.0, 0.0, 0.0) (0.0, 1.0, 0.0)
    let model := ops.rotate ops.identity s.rotationAngle 0.0 1.0 0.0
    let model := ops.rotate model (s.rotationAngle / 2.0) 1.0 0.0 0.0
    some ({ s with view := view, model := model },
      [.clear true true, .programBind, .vaoBind,
        .setUniform "view", .setUniform "projection", .setUniform "model",
        .bindElementBuffer s.ebo]
      ++ (List.range 6).flatMap (drawFace s.textures)
      ++ [.vaoRelease, .programRelease])

/-- The slot `updateAnimation`. -/
def updateAnimation {M : Type} (s : OpenGLWidget M) : OpenGLWidget M × List GLCall :=
  let rotationAngle := s.rotationAngle + 1
  let rotationAngle := if rotationAngle > 360 then rotationAngle - 360 else rotationAngle
  ({ s with rotationAngle := rotationAngle }, [.update])

/-- One event of the Qt loop applied to the widget. -/
def step {M : Type} (ops : QMatrixOps M) (e : Event) (s : OpenGLWidget M) :
    Option (OpenGLWidget M) :=
  match e with
  | .tick => some (updateAnimation s).1
  | .paint => (paintGL ops s).map Prod.fst
  | .resize w h => some (resizeGL ops w h s).1

/-- A sequence of events applied in order. -/
def run {M : Type} (ops : QMatrixOps M) : List Event → OpenGLWidget M →
    Option (OpenGLWidget M)
  | [], s => some s
  | e :: es, s => (step ops e s).bind (run ops es)

/-- The call list of one frame when all six texture slots are filled and the member `ebo`
holds `ebo` (the value `paintGL` is shown to produce then). -/
def frameCalls (ebo : Nat) : List GLCall :=
  [.clear true true, .programBind, .vaoBind,
    .setUniform "view", .setUniform "projection", .setUniform "model",
    .bindElementBuffer ebo,
    .activeTexture 0, .textureBind 0, .setUniform "textureSampler", .drawElements 6 0,
    .textureRelease 0,
    .activeTexture 0, .textureBind 1, .setUniform "textureSampler", .drawElements 6 24,
    .textureRelease 1,
    .activeTexture 0, .textureBind 2, .setUniform "textureSampler", .drawElements 6 48,
    .textureRelease 2,
    .activeTexture 0, .textureBind 3, .setUniform "textureSampler", .drawElements 6 72,
    .textureRelease 3,
    .activeTexture 0, .textureBind 4, .setUniform "textureSampler", .drawElements 6 96,
    .textureRelease 4,
    .activeTexture 0, .textureBind 5, .setUniform "textureSampler", .drawElements 6 120,
    .textureRelease 5,
    .vaoRelease, .programRelease]

end Demo06

/-! ## Vocabulary of the properties -/

/-- The image a texture holds: the argument of the last `setData` of its call history. -/
def QOpenGLTexture.uploaded (t : QOpenGLTexture) : Option QImage :=
  t.calls.foldl (fun acc c =>
    match c with
    | .setData image => some image
    | _ => acc) none

/-- The pixel in column `x` of row `y`, rows counted from the top. -/
def QImage.pixel (image : QImage) (x y : Nat) : Option QColor :=
  (image.rows[y]?).bind fun row => row[x]?

/-- The vertical mirror of an image: the row order is reversed, every row stays as it is. -/
def verticalMirror (image : QImage) : QImage :=
  ⟨image.rows.reverse⟩

/-- Whether every `generateMipMaps` of a call history comes after a `setData`; the flag
tells whether a `setData` has been seen. -/
def mipmapsFollowUpload : Bool → List TextureCall → Bool
  | _, [] => true
  | _, .setData _ :: rest => mipmapsFollowUpload true rest
  | seen, .generateMipMaps :: rest => seen && mipmapsFollowUpload seen rest
  | seen, _ :: rest => mipmapsFollowUpload seen rest

/-- The image demo 06 hands to its texture before mirroring: the decoded file when `load`
succeeds, the labelled light-grey square otherwise. -/
def Demo06.sourceImage (host : Host) (filePath fallbackText : String) : QImage :=
  if (QImage.load host filePath).1 then (QImage.load host filePath).2
  else host.drawText (QImage.filled 256 256 ⟨240, 240, 240⟩) fallbackText

/-- The image demo 03 hands to its texture before mirroring: the decoded file when `load`
succeeds with a non-null image, the checkerboard otherwise. -/
def Demo03.sourceImage (host : Host) (relativePath : String) : QImage :=
  let absolutePath := QDir.filePath host.applicationDirPath relativePath
  if (QImage.load host absolutePath).1 && !(QImage.load host absolutePath).2.isNull then
    (QImage.load host absolutePath).2
  else Demo03.checkerboardImage

/-- A one-pixel image, standing for the content of an image file. -/
def sampleImage : QImage := ⟨[[⟨255, 0, 0⟩]]⟩

/-- A file system holding the single file `/app/textures/dice_face_1.png`. -/
def sampleFiles (path : String) : Bool × QImage :=
  if path = "/app/textures/dice_face_1.png" then (true, sampleImage) else (false, ⟨[]⟩)

/-- The environment of an executable in `/app` with the files of `sampleFiles`, started from
the working directory `cwd`. -/
def sampleHost (cwd : String) : Host :=
  ⟨"/app", cwd, sampleFiles, fun image _ => image⟩

/-- What the vertex stage reads for attribute `a` of vertex `i`: `tupleSize` floats starting
`offset` bytes into record `i` of the table, records being `stride` bytes apart. -/
def attributeValue (table : List ℚ) (a : VertexAttrib) (i : Nat) : List ℚ :=
  (table.drop (i * (a.stride / sizeofFloat) + a.offset / sizeofFloat)).take a.tupleSize

/-- The index triples `GL_TRIANGLES` assembles from an index list. -/
def triangles : List Nat → List (Nat × Nat × Nat)
  | a :: b :: c :: rest => (a, b, c) :: triangles rest
  | _ => []

/-- Twice the signed area of the plane triangle `p q r`: positive when the three points run
counter-clockwise. -/
def cross2 (p q r : ℚ × ℚ) : ℚ :=
  (q.1 - p.1) * (r.2 - p.2) - (q.2 - p.2) * (r.1 - p.1)

/-- The area of the plane triangle `p q r`. -/
def triangleArea (p q r : ℚ × ℚ) : ℚ :=
  |cross2 p q r| / 2

/-- The cross product of two vectors of space. -/
def cross3 (u v : ℚ × ℚ × ℚ) : ℚ × ℚ × ℚ :=
  (u.2.1 * v.2.2 - u.2.2 * v.2.1, u.2.2 * v.1 - u.1 * v.2.2, u.1 * v.2.1 - u.2.1 * v.1)

/-- The difference of two points of space. -/
def sub3 (p q : ℚ × ℚ × ℚ) : ℚ × ℚ × ℚ :=
  (p.1 - q.1, p.2.1 - q.2.1, p.2.2 - q.2.2)

/-- The position attribute (location 0) of vertex `i` of demo 03. -/
def Demo03.position (i : Nat) : ℚ × ℚ × ℚ :=
  let v := attributeValue Demo03.vertices ⟨0, 3, 0, Demo03.stride⟩ i
  (v.getD 0 0, v.getD 1 0, v.getD 2 0)

/-- The plane coordinates of vertex `i` of demo 03. -/
def Demo03.xy (i : Nat) : ℚ × ℚ :=
  ((Demo03.position i).1, (Demo03.position i).2.1)

/-- The texture coordinate attribute (location 2) of vertex `i` of demo 03. -/
def Demo03.uv (i : Nat) : ℚ × ℚ :=
  let v := attributeValue Demo03.vertices ⟨2, 2, 3 * sizeofFloat, Demo03.stride⟩ i
  (v.getD 0 0, v.getD 1 0)

/-- The three coordinate axes. -/
inductive Axis
  | X
  | Y
  | Z
  deriving DecidableEq, Repr

/-- The coordinate of a point along an axis. -/
def Axis.coordinate : Axis → ℚ × ℚ × ℚ → ℚ
  | .X, p => p.1
  | .Y, p => p.2.1
  | .Z, p => p.2.2

/-- A face plane of the cube of edge 1 centred at the origin: the points whose coordinate
along the axis is `1/2` (positive side) or `-1/2` (negative side). -/
def onFacePlane (plane : Axis × Bool) (p : ℚ × ℚ × ℚ) : Prop :=
  plane.1.coordinate p = if plane.2 then 1/2 else -1/2

/-- Two face planes are opposite when they have the same axis and different sides. -/
def oppositePlanes (a b : Axis × Bool) : Bool :=
  decide (a.1 = b.1) && (a.2 != b.2)

/-- The decimal digits occurring in a string, in order. -/
def digitsOf (text : String) : List Char :=
  text.toList.filter fun c => (digitValue c).isSome

/-- The number a one-digit label shows. -/
def labelValue (label : String) : Option Nat :=
  match label.toList with
  | [c] => digitValue c
  | _ => none

/-- The position attribute (location 0) of vertex `i` of demo 06. -/
def Demo06.position (i : Nat) : ℚ × ℚ × ℚ :=
  let v := attributeValue Demo06.cubeVertices ⟨0, 3, 0, Demo06.stride⟩ i
  (v.getD 0 0, v.getD 1 0, v.getD 2 0)

/-- The texture coordinate attribute (location 1) of vertex `i` of demo 06. -/
def Demo06.uv (i : Nat) : ℚ × ℚ :=
  let v := attributeValue Demo06.cubeVertices ⟨1, 2, 3 * sizeofFloat, Demo06.stride⟩ i
  (v.getD 0 0, v.getD 1 0)

/-- The arguments of the six calls in `loadTextures`, in slot order: requested file and
fallback label. -/
def Demo06.faceRequests : List (String × String) := [
  ("textures/dice_face_1.png", "1"),
  ("textures/dice_face_6.png", "6"),
  ("textures/dice_face_5.png", "5"),
  ("textures/dice_face_2.png", "2"),
  ("textures/dice_face_3.png", "3"),
  ("textures/dice_face_4.png", "4")]

/-- The planes the comments of `loadTextures` name for the six slots, in slot order:
+Z, -Z, +Y, -Y, +X, -X. -/
def Demo06.facePlanes : List (Axis × Bool) :=
  [(.Z, true), (.Z, false), (.Y, true), (.Y, false), (.X, true), (.X, false)]

/-- The vertices the draw of face `i` references: the entries of `cubeIndices` in the
element range of that draw. -/
def Demo06.faceVertices (i : Nat) : List Nat :=
  (elementRange 6 (i * 6 * sizeofUInt)).map fun k => Demo06.cubeIndices.getD k 0

/-- What is bound in the GL context at some point of a call list: the shader program in
use, whether the widget's vertex array object is the current one, the texture slot bound
to the texture unit, and the element buffer.  The element-array binding is state of the
vertex array object that is current, not of the context as such: `vaoElementBuffer` is the
buffer name recorded in the widget's vertex array object, in force only while that object
is bound, and `elementBuffer` is the name bound while no vertex array object is current.
Buffer name 0 stands for no buffer. -/
structure Bindings where
  program : Bool
  vao : Bool
  elementBuffer : Nat
  vaoElementBuffer : Nat
  texture : Option Nat
  deriving DecidableEq, Repr

/-- Nothing bound in the context; the widget's vertex array object records the element
buffer `vaoElementBuffer`. -/
def Bindings.released (vaoElementBuffer : Nat) : Bindings :=
  ⟨false, false, 0, vaoElementBuffer, none⟩

/-- The element buffer a `glDrawElements` issued now would read: the one recorded in the
vertex array object when that object is bound, the one of the context otherwise. -/
def Bindings.boundElementBuffer (b : Bindings) : Nat :=
  if b.vao then b.vaoElementBuffer else b.elementBuffer

/-- Whether nothing is bound in the context: no program, no vertex array object, no element
buffer, no texture. -/
def Bindings.nothingBound (b : Bindings) : Bool :=
  !b.program && !b.vao && b.boundElementBuffer == 0 && b.texture.isNone

/-- The effect of one call on the bindings.  `vaoCreated` tells whether `vao.create()` has
run: `QOpenGLVertexArrayObject::bind()` binds nothing on an object that was not created.
`glBindBuffer(GL_ELEMENT_ARRAY_BUFFER, buffer)` writes into the vertex array object that
is current, and into the context when there is none; releasing the vertex array object
leaves what it recorded in the object and puts the binding of the context back in force.
A `programBind` counts as binding the program (when `bind()` fails nothing is bound, and
the `release()` that follows clears the program either way). -/
def Bindings.after (vaoCreated : Bool) (b : Bindings) : GLCall → Bindings
  | .programBind => { b with program := true }
  | .programRelease => { b with program := false }
  | .vaoBind => { b with vao := vaoCreated }
  | .vaoRelease => { b with vao := false }
  | .bindElementBuffer buffer =>
    if b.vao then { b with vaoElementBuffer := buffer } else { b with elementBuffer := buffer }
  | .textureBind slot => { b with texture := some slot }
  | .textureRelease _ => { b with texture := none }
  | _ => b

/-- The bindings a call list leaves behind when it starts with nothing bound in the
context and with `vaoElementBuffer` recorded in the vertex array object. -/
def bindingsLeft (vaoCreated : Bool) (vaoElementBuffer : Nat) (calls : List GLCall) :
    Bindings :=
  calls.foldl (Bindings.after vaoCreated) (Bindings.released vaoElementBuffer)

/-- The arguments of the `glClear` calls of a call list: colour bit, depth bit. -/
def clearCalls : List GLCall → List (Bool × Bool)
  | [] => []
  | .clear color depth :: rest => (color, depth) :: clearCalls rest
  | _ :: rest => clearCalls rest

/-- The colour the checkerboard is to have at pixel `(x, y)`: dark grey when exactly one of
the tile numbers `x / 16` and `y / 16` is even, light grey otherwise. -/
def checkerTone (x y : Nat) : QColor :=
  if (Even (x / 16) ∧ ¬ Even (y / 16)) ∨ (¬ Even (x / 16) ∧ Even (y / 16)) then ⟨50, 50, 50⟩
  else ⟨200, 200, 200⟩

/-- The 4 x 4 matrix with the given rows. -/
def matrixOfRows (rows : List (List ℚ)) : RatMatrix :=
  fun i j => (rows.getD i []).getD j 0

/-- Cosine and sine of an angle in degrees at the quarter turns, where both are rational;
at the other angles the values are irrational and `none` is returned. -/
def quarterTurn (angle : ℚ) : Option (ℚ × ℚ) :=
  if angle = 0 then some (1, 0)
  else if angle = 90 then some (0, 1)
  else if angle = 180 then some (-1, 0)
  else if angle = 270 then some (0, -1)
  else if angle = 360 then some (1, 0)
  else none

/-- The rotation with cosine `c` and sine `s` about the unit vector `(x, y, z)`, as
`QMatrix4x4::rotate` builds it. -/
def rotationMatrix (c s x y z : ℚ) : RatMatrix :=
  matrixOfRows [
    [x * x * (1 - c) + c, x * y * (1 - c) - z * s, x * z * (1 - c) + y * s, 0],
    [y * x * (1 - c) + z * s, y * y * (1 - c) + c, y * z * (1 - c) - x * s, 0],
    [x * z * (1 - c) - y * s, y * z * (1 - c) + x * s, z * z * (1 - c) + c, 0],
    [0, 0, 0, 1]]

/-- The translation by `(x, y, z)`, as `QMatrix4x4::translate` builds it. -/
def translationMatrix (x y z : ℚ) : RatMatrix :=
  matrixOfRows [
    [1, 0, 0, x],
    [0, 1, 0, y],
    [0, 0, 1, z],
    [0, 0, 0, 1]]

/-- The matrix an expression stands for, in exact arithmetic, where it is rational: the
identity, translations, and rotations by quarter turns about a unit vector, each
multiplied from the right onto the matrix it is called on.  Perspective and look-at
matrices, and rotations by other angles or about vectors of other lengths, are left
out (`none`). -/
def MatrixExpr.value : MatrixExpr → Option RatMatrix
  | .identity => some 1
  | .rotate m angle x y z =>
    match m.value, quarterTurn angle with
    | some a, some (c, s) =>
      if x * x + y * y + z * z = 1 then some (a * rotationMatrix c s x y z) else none
    | _, _ => none
  | .translate m x y z => m.value.map fun a => a * translationMatrix x y z
  | .perspective _ _ _ _ _ => none
  | .lookAt _ _ _ _ => none

/-- The model matrix `paintGL` of demo 06 composes for a value of `rotationAngle`:
`setToIdentity`, `rotate(angle, 0, 1, 0)`, `rotate(angle / 2, 1, 0, 0)`. -/
def Demo06.modelAt {M : Type} (ops : QMatrixOps M) (rotationAngle : Int) : M :=
  ops.rotate (ops.rotate ops.identity rotationAngle 0.0 1.0 0.0)
    (rotationAngle / 2.0) 1.0 0.0 0.0

/-- The half turn about the X axis. -/
def halfTurnAboutX : RatMatrix :=
  matrixOfRows [
    [1, 0, 0, 0],
    [0, -1, 0, 0],
    [0, 0, -1, 0],
    [0, 0, 0, 1]]

/-- The model matrix of demo 06 from the cosines and sines of its two rotations: about Y
by the angle, then about X by half the angle. -/
def Demo06.modelMatrix (cosY sinY cosX sinX : ℚ) : RatMatrix :=
  1 * rotationMatrix cosY sinY 0 1 0 * rotationMatrix cosX sinX 1 0 0

/-- Record `i` of a vertex table read with the given stride: all the floats of the vertex,
position and colour. -/
def vertexRecord (table : List ℚ) (strideBytes i : Nat) : List ℚ :=
  (table.drop (i * (strideBytes / sizeofFloat))).take (strideBytes / sizeofFloat)

/-- The three cyclic rotations of a triple; they keep the winding of a triangle. -/
def cyclicRotations {α : Type} (t : α × α × α) : List (α × α × α) :=
  [(t.1, t.2.1, t.2.2), (t.2.1, t.2.2, t.1), (t.2.2, t.1, t.2.1)]

/-- The records of the `k`-th triangle `glDrawArrays(GL_TRIANGLES, 0, 36)` assembles in
demo 04: records `3k`, `3k + 1`, `3k + 2` of the table. -/
def Demo04.triangleRecords (k : Nat) : List ℚ × List ℚ × List ℚ :=
  (vertexRecord Demo04.vertices Demo04.stride (3 * k),
    vertexRecord Demo04.vertices Demo04.stride (3 * k + 1),
    vertexRecord Demo04.vertices Demo04.stride (3 * k + 2))

/-- The records of the `k`-th triangle `glDrawElements(GL_TRIANGLES, 36, ..)` assembles in
demo 05: the records named by the `k`-th index triple. -/
def Demo05.triangleRecords (k : Nat) : List ℚ × List ℚ × List ℚ :=
  let t := (triangles Demo05.indices).getD k (0, 0, 0)
  (vertexRecord Demo05.vertices Demo05.stride t.1,
    vertexRecord Demo05.vertices Demo05.stride t.2.1,
    vertexRecord Demo05.vertices Demo05.stride t.2.2)

/-- The outward unit normal of a face plane of the cube. -/
def outwardNormal (plane : Axis × Bool) : ℚ × ℚ × ℚ :=
  match plane with
  | (.X, true) => (1, 0, 0)
  | (.X, false) => (-1, 0, 0)
  | (.Y, true) => (0, 1, 0)
  | (.Y, false) => (0, -1, 0)
  | (.Z, true) => (0, 0, 1)
  | (.Z, false) => (0, 0, -1)

/-- A vector points along a direction when it is a positive multiple of it. -/
def pointsAlong (n d : ℚ × ℚ × ℚ) : Prop :=
  ∃ c : ℚ, 0 < c ∧ n = (c * d.1, c * d.2.1, c * d.2.2)

/-- The point `o + s u + t v` for `st = (s, t)`. -/
def affinePoint (o u v : ℚ × ℚ × ℚ) (st : ℚ × ℚ) : ℚ × ℚ × ℚ :=
  (o.1 + st.1 * u.1 + st.2 * v.1, o.2.1 + st.1 * u.2.1 + st.2 * v.2.1,
    o.2.2 + st.1 * u.2.2 + st.2 * v.2.2)

/-- The cross product of the two edges leaving the first vertex of the `k`-th triangle of
`cubeIndices`: the normal on the side from which the triangle is seen counter-clockwise. -/
def Demo06.triangleNormal (k : Nat) : ℚ × ℚ × ℚ :=
  let t := (triangles Demo06.cubeIndices).getD k (0, 0, 0)
  cross3 (sub3 (Demo06.position t.2.1) (Demo06.position t.1))
    (sub3 (Demo06.position t.2.2) (Demo06.position t.1))

/-- The position attribute (location 0) of vertex `i` of demo 05. -/
def Demo05.position (i : Nat) : ℚ × ℚ × ℚ :=
  let v := attributeValue Demo05.vertices ⟨0, 3, 0, Demo05.stride⟩ i
  (v.getD 0 0, v.getD 1 0, v.getD 2 0)

/-- The planes the comments of `indices` name for the six pairs of triangles of demo 05:
front, back, right, left, top, bottom. -/
def Demo05.facePlanes : List (Axis × Bool) :=
  [(.Z, true), (.Z, false), (.X, true), (.X, false), (.Y, true), (.Y, false)]

/-- The cross product of the two edges leaving the first vertex of the `k`-th triangle of
`indices` in demo 05. -/
def Demo05.triangleNormal (k : Nat) : ℚ × ℚ × ℚ :=
  let t := (triangles Demo05.indices).getD k (0, 0, 0)
  cross3 (sub3 (Demo05.position t.2.1) (Demo05.position t.1))
    (sub3 (Demo05.position t.2.2) (Demo05.position t.1))

/-! ## Properties -/

/-! ### Texture loading never leaves a null pointer -/

theorem demo06_loadSingleTextureOrFallback_isSome (host : Host) (filePath fallbackText : String) :
    (Demo06.loadSingleTextureOrFallback host filePath fallbackText).isSome = true := by
  unfold Demo06.loadSingleTextureOrFallback
  rfl

theorem demo06_loadTextures_textures {M : Type} (host : Host) (s : Demo06.OpenGLWidget M) :
    (Demo06.loadTextures host s).textures.map Option.isSome = List.replicate 6 true := by
  simp [Demo06.loadTextures, demo06_loadSingleTextureOrFallback_isSome]

theorem demo03_loadTexture_isSome (host : Host) (relativePath : String)
    (s : Demo03.OpenGLWidget) :
    (Demo03.loadTexture host relativePath s).texture.isSome = true := by
  unfold Demo03.loadTexture
  simp only []
  split_ifs <;> rfl

/-! ### The state of demo 06 after `initializeGL` -/

theorem demo06_initializeGL_program {M : Type} (build : ShaderBuild) (host : Host)
    (eboName : Nat) (s : Demo06.OpenGLWidget M) :
    (Demo06.initializeGL build host eboName s).1.program = some ⟨build.links⟩ := rfl

theorem demo06_initializeGL_rotationAngle {M : Type} (build : ShaderBuild) (host : Host)
    (eboName : Nat) (s : Demo06.OpenGLWidget M) :
    (Demo06.initializeGL build host eboName s).1.rotationAngle = s.rotationAngle := rfl

theorem demo06_initializeGL_textures {M : Type} (build : ShaderBuild) (host : Host)
    (eboName : Nat) (s : Demo06.OpenGLWidget M) :
    (Demo06.initializeGL build host eboName s).1.textures.map Option.isSome
      = List.replicate 6 true :=
  demo06_loadTextures_textures host _

/-- A tick changes neither the program nor the textures, and moves the angle to a value
congruent to its successor. -/
theorem demo06_updateAnimation_effect {M : Type} (s : Demo06.OpenGLWidget M) :
    (Demo06.updateAnimation s).1.program = s.program ∧
    (Demo06.updateAnimation s).1.textures = s.textures ∧
    (Demo06.updateAnimation s).1.rotationAngle % 360 = (s.rotationAngle + 1) % 360 := by
  refine ⟨rfl, rfl, ?_⟩
  simp only [Demo06.updateAnimation]
  split <;> omega

/-- Painting with a program at hand succeeds and changes neither the program, the textures
nor the angle. -/
theorem demo06_paintGL_effect {M : Type} (ops : QMatrixOps M) (s : Demo06.OpenGLWidget M)
    (p : QOpenGLShaderProgram) (hp : s.program = some p) :
    ∃ r, Demo06.paintGL ops s = some r ∧ r.1.program = s.program ∧
      r.1.textures = s.textures ∧ r.1.rotationAngle = s.rotationAngle := by
  simp [Demo06.paintGL, hp]

/-- After start-up every event sequence runs to the end; it keeps the program and the
textures, and the angle moves by the number of ticks modulo 360. -/
theorem demo06_run_effect {M : Type} (ops : QMatrixOps M) (evs : List Event) :
    ∀ (s : Demo06.OpenGLWidget M) (p : QOpenGLShaderProgram), s.program = some p →
    ∃ s', Demo06.run ops evs s = some s' ∧ s'.program = s.program ∧
      s'.textures = s.textures ∧
      s'.rotationAngle % 360 = (s.rotationAngle + (evs.count Event.tick : Nat)) % 360 := by
  induction evs with
  | nil => intro s p _; exact ⟨s, rfl, rfl, rfl, by simp⟩
  | cons e es ih =>
    intro s p hp
    cases e with
    | tick =>
      obtain ⟨h1, h2, h3⟩ := demo06_updateAnimation_effect s
      obtain ⟨s', hs, hp', ht', ha'⟩ := ih (Demo06.updateAnimation s).1 p (h1.trans hp)
      refine ⟨s', ?_, hp'.trans h1, ht'.trans h2, ?_⟩
      · simpa [Demo06.run, Demo06.step] using hs
      · rw [ha', List.count_cons_self]
        push_cast
        omega
    | paint =>
      obtain ⟨r, hr, h1, h2, h3⟩ := demo06_paintGL_effect ops s p hp
      obtain ⟨s', hs, hp', ht', ha'⟩ := ih r.1 p (h1.trans hp)
      refine ⟨s', ?_, hp'.trans h1, ht'.trans h2, ?_⟩
      · simpa [Demo06.run, Demo06.step, hr] using hs
      · rw [ha', h3]
        simp
    | resize w h =>
      obtain ⟨s', hs, hp', ht', ha'⟩ := ih (Demo06.resizeGL ops w h s).1 p hp
      refine ⟨s', ?_, hp', ht', ?_⟩
      · simpa [Demo06.run, Demo06.step] using hs
      · rw [ha']
        simp [Demo06.resizeGL]

/-! ### The six draws of demo 06 -/

theorem getD_isSome_eq (l : List (Option QOpenGLTexture)) :
    ∀ i : Nat, (l.getD i none).isSome = (l.map Option.isSome).getD i false := by
  induction l with
  | nil => intro i; simp
  | cons a l ih =>
    intro i
    cases i with
    | zero => simp
    | succ i => simpa using ih i

/-- With all six slots filled, the loop body of `paintGL` issues its five calls. -/
theorem demo06_drawFace_filled (textures : List (Option QOpenGLTexture))
    (h : textures.map Option.isSome = List.replicate 6 true) (i : Nat) (hi : i < 6) :
    Demo06.drawFace textures i =
      [.activeTexture 0, .textureBind i, .setUniform "textureSampler",
        .drawElements 6 (i * 6 * sizeofUInt), .textureRelease i] := by
  have hs : (textures.getD i none).isSome = true := by
    rw [getD_isSome_eq, h]
    interval_cases i <;> rfl
  rw [Demo06.drawFace, if_pos hs]

theorem demo06_paintGL_calls {M : Type} (ops : QMatrixOps M) (s : Demo06.OpenGLWidget M)
    (p : QOpenGLShaderProgram) (hp : s.program = some p)
    (h : s.textures.map Option.isSome = List.replicate 6 true) :
    ∃ r, Demo06.paintGL ops s = some r ∧ r.2 = Demo06.frameCalls s.ebo := by
  have hr : List.range 6 = [0, 1, 2, 3, 4, 5] := by decide
  simp [Demo06.paintGL, hp, hr, demo06_drawFace_filled _ h, Demo06.frameCalls, sizeofUInt]

/-- C1. In demo 06, after `initializeGL` and any further events, `paintGL` succeeds and
issues exactly six `glDrawElements` calls; the i-th has the (non-null) texture slot i
bound, count 6 and byte offset 24*i; the six element ranges are the blocks [6i, 6i+6),
all of length 6, pairwise disjoint, and laid end to end they are exactly the positions
0..35 of `cubeIndices`; the six bound slots are distinct. -/
theorem c1_six_face_draws_partition_index_buffer {M : Type} (ops : QMatrixOps M)
    (build : ShaderBuild) (host : Host) (eboName : Nat) (evs : List Event) :
    ∃ s r,
      Demo06.run ops evs
          (Demo06.initializeGL build host eboName (Demo06.OpenGLWidget.OpenGLWidget ops)).1
        = some s ∧
      Demo06.paintGL ops s = some r ∧
      s.textures.map Option.isSome = List.replicate 6 true ∧
      drawCalls r.2 = (List.range 6).map (fun i => GLCall.drawElements 6 (24 * i)) ∧
      texturedDraws none r.2 = (List.range 6).map (fun i => (some i, 6, 24 * i)) ∧
      ((texturedDraws none r.2).map fun d => elementRange d.2.1 d.2.2)
        = (List.range 6).map (fun i => List.range' (6 * i) 6) ∧
      ((texturedDraws none r.2).map fun d => (elementRange d.2.1 d.2.2).length)
        = List.replicate 6 6 ∧
      ((texturedDraws none r.2).map fun d => elementRange d.2.1 d.2.2).flatten
        = List.range Demo06.cubeIndices.length ∧
      ((texturedDraws none r.2).map fun d => elementRange d.2.1 d.2.2).Pairwise List.Disjoint ∧
      ((texturedDraws none r.2).map fun d => d.1).Nodup := by
  obtain ⟨s, hs, hprog, htex, _⟩ :=
    demo06_run_effect ops evs
      (Demo06.initializeGL build host eboName (Demo06.OpenGLWidget.OpenGLWidget ops)).1
      ⟨build.links⟩ (demo06_initializeGL_program build host eboName _)
  have hfilled : s.textures.map Option.isSome = List.replicate 6 true := by
    rw [htex]
    exact demo06_initializeGL_textures build host eboName _
  obtain ⟨r, hr, hcalls⟩ := demo06_paintGL_calls ops s ⟨build.links⟩
    (hprog.trans (demo06_initializeGL_program build host eboName _)) hfilled
  refine ⟨s, r, hs, hr, hfilled, ?_⟩
  have hd : drawCalls (Demo06.frameCalls s.ebo) = drawCalls (Demo06.frameCalls 0) := rfl
  have ht : texturedDraws none (Demo06.frameCalls s.ebo)
      = texturedDraws none (Demo06.frameCalls 0) := rfl
  rw [hcalls, hd, ht]
  have hflat : ((texturedDraws none (Demo06.frameCalls 0)).map
      fun d => elementRange d.2.1 d.2.2).flatten = List.range Demo06.cubeIndices.length := by
    decide
  refine ⟨by decide, by decide, by decide, by decide, hflat, ?_, by decide⟩
  have hnodup : (((texturedDraws none (Demo06.frameCalls 0)).map
      fun d => elementRange d.2.1 d.2.2).flatten).Nodup := by
    rw [hflat]
    exact List.nodup_range _
  exact (List.nodup_flatten.1 hnodup).2

/-- C2. Texture loading is total.  Whatever the environment (paths, working directory,
outcome of the image decode), `loadSingleTextureOrFallback` of demo 06 returns a non-null
texture for every path and label, `loadTexture` of demo 03 leaves `texture` non-null for
every path and prior widget state, and after `loadTextures` the array `textures` has six
entries, all non-null.  The functions are total and carry no error value. -/
theorem c2_texture_loading_total (host : Host) :
    (∀ filePath fallbackText : String,
      ∃ t, Demo06.loadSingleTextureOrFallback host filePath fallbackText = some t) ∧
    (∀ (relativePath : String) (s : Demo03.OpenGLWidget),
      ∃ t, (Demo03.loadTexture host relativePath s).texture = some t) ∧
    (∀ (M : Type) (s : Demo06.OpenGLWidget M),
      (Demo06.loadTextures host s).textures.map Option.isSome = List.replicate 6 true) := by
  refine ⟨?_, ?_, ?_⟩
  · intro filePath fallbackText
    exact Option.isSome_iff_exists.1
      (demo06_loadSingleTextureOrFallback_isSome host filePath fallbackText)
  · intro relativePath s
    exact Option.isSome_iff_exists.1 (demo03_loadTexture_isSome host relativePath s)
  · intro M s
    exact demo06_loadTextures_textures host s

/-- C3. Every index the demos upload is below the number of vertex records of the vertex
array it goes with: demos 02 and 03 have 6 indices over 4 vertices, demo 05 has 36 over 8,
demo 06 has 36 over 24. -/
theorem c3_indices_below_vertex_count :
    (Demo02.indices.length = 6 ∧ vertexCount Demo02.vertices Demo02.stride = 4 ∧
      ∀ i ∈ Demo02.indices, i < vertexCount Demo02.vertices Demo02.stride) ∧
    (Demo03.indices.length = 6 ∧ vertexCount Demo03.vertices Demo03.stride = 4 ∧
      ∀ i ∈ Demo03.indices, i < vertexCount Demo03.vertices Demo03.stride) ∧
    (Demo05.indices.length = 36 ∧ vertexCount Demo05.vertices Demo05.stride = 8 ∧
      ∀ i ∈ Demo05.indices, i < vertexCount Demo05.vertices Demo05.stride) ∧
    (Demo06.cubeIndices.length = 36 ∧ vertexCount Demo06.cubeVertices Demo06.stride = 24 ∧
      ∀ i ∈ Demo06.cubeIndices, i < vertexCount Demo06.cubeVertices Demo06.stride) := by
  refine ⟨?_, ?_, ?_, ?_⟩ <;> decide

/-! ### Attribute layouts -/

/-- Demos 01 to 03 configure their attributes exactly when the shader build succeeded. -/
theorem flat_demos_configured (build : ShaderBuild) (host : Host) (eboName : Nat)
    (s1 : Demo01.OpenGLWidget) (s2 : Demo02.OpenGLWidget) (s3 : Demo03.OpenGLWidget) :
    configuredAttributes (Demo01.initializeGL build s1).2
      = (if build.vertexCompiles && build.fragmentCompiles && build.links
          then Demo01.attributes else []) ∧
    configuredAttributes (Demo02.initializeGL build eboName s2).2
      = (if build.vertexCompiles && build.fragmentCompiles && build.links
          then Demo02.attributes else []) ∧
    configuredAttributes (Demo03.initializeGL build host eboName s3).2
      = (if build.vertexCompiles && build.fragmentCompiles && build.links
          then Demo03.attributes else []) := by
  rcases build with ⟨_ | _, _ | _, _ | _⟩ <;> exact ⟨rfl, rfl, rfl⟩

/-- Demos 04 to 06 configure their attributes whatever the shader build answered. -/
theorem cube_demos_configured {M : Type} (build : ShaderBuild) (host : Host) (eboName : Nat)
    (s4 : Demo04.OpenGLWidget M) (s5 : Demo05.OpenGLWidget M) (s6 : Demo06.OpenGLWidget M) :
    configuredAttributes (Demo04.initializeGL build s4).2 = Demo04.attributes ∧
    configuredAttributes (Demo05.initializeGL build eboName s5).2 = Demo05.attributes ∧
    configuredAttributes (Demo06.initializeGL build host eboName s6).2 = Demo06.attributes :=
  ⟨rfl, rfl, rfl⟩

theorem demo04_initializeGL_program {M : Type} (build : ShaderBuild) 
    (s : Demo04.OpenGLWidget M) :
    (Demo04.initializeGL build s).1.program = some ⟨build.ok⟩ := by
  rcases build with ⟨_ | _, _ | _, _ | _⟩ <;> rfl

theorem demo04_initializeGL_rotationAngle {M : Type} (build : ShaderBuild) 
    (s : Demo04.OpenGLWidget M) :
    (Demo04.initializeGL build s).1.rotationAngle = s.rotationAngle := by
  rcases build with ⟨_ | _, _ | _, _ | _⟩ <;> rfl

theorem demo04_step_program {M : Type} (ops : QMatrixOps M) (e : Event)
    (s : Demo04.OpenGLWidget M) : (Demo04.step ops e s).program = s.program := by
  cases e with
  | tick => rfl
  | resize w h => rfl
  | paint =>
    simp only [Demo04.step, Demo04.paintGL]
    split
    · rfl
    · split <;> rfl

theorem demo04_run_program {M : Type} (ops : QMatrixOps M) (evs : List Event) :
    ∀ s : Demo04.OpenGLWidget M, (Demo04.run ops evs s).program = s.program := by
  induction evs with
  | nil => intro s; rfl
  | cons e es ih => intro s; exact (ih _).trans (demo04_step_program ops e s)

/-- Without a linked program `paintGL` clears the buffers and returns: no draw call, and
the widget is left as it was. -/
theorem demo04_paintGL_unlinked {M : Type} (ops : QMatrixOps M) (s : Demo04.OpenGLWidget M)
    (h : s.program = some ⟨false⟩) :
    Demo04.paintGL ops s = (s, [.clearColor, .clear true true]) := by
  simp [Demo04.paintGL, h]

/-- After a failed shader build no later frame of demo 04 issues a draw call. -/
theorem demo04_no_draw_after_failed_build {M : Type} (ops : QMatrixOps M)
    (build : ShaderBuild)  (hfail : build.ok = false) (evs : List Event)
    (s : Demo04.OpenGLWidget M) :
    drawCalls (Demo04.paintGL ops (Demo04.run ops evs (Demo04.initializeGL build s).1)).2
      = [] := by
  have hp : (Demo04.run ops evs (Demo04.initializeGL build s).1).program = some ⟨false⟩ := by
    rw [demo04_run_program, demo04_initializeGL_program, hfail]
  rw [demo04_paintGL_unlinked ops _ hp]
  rfl

theorem demo05_initializeGL_program {M : Type} (build : ShaderBuild) (eboName : Nat)
    (s : Demo05.OpenGLWidget M) :
    (Demo05.initializeGL build eboName s).1.program = some ⟨build.ok⟩ := by
  rcases build with ⟨_ | _, _ | _, _ | _⟩ <;> rfl

theorem demo05_initializeGL_rotationAngle {M : Type} (build : ShaderBuild) (eboName : Nat)
    (s : Demo05.OpenGLWidget M) :
    (Demo05.initializeGL build eboName s).1.rotationAngle = s.rotationAngle := by
  rcases build with ⟨_ | _, _ | _, _ | _⟩ <;> rfl

theorem demo05_step_program {M : Type} (ops : QMatrixOps M) (e : Event)
    (s : Demo05.OpenGLWidget M) : (Demo05.step ops e s).program = s.program := by
  cases e with
  | tick => rfl
  | resize w h => rfl
  | paint =>
    simp only [Demo05.step, Demo05.paintGL]
    split
    · rfl
    · split <;> rfl

theorem demo05_run_program {M : Type} (ops : QMatrixOps M) (evs : List Event) :
    ∀ s : Demo05.OpenGLWidget M, (Demo05.run ops evs s).program = s.program := by
  induction evs with
  | nil => intro s; rfl
  | cons e es ih => intro s; exact (ih _).trans (demo05_step_program ops e s)

/-- Without a linked program `paintGL` clears the buffers and returns: no draw call, and
the widget is left as it was. -/
theorem demo05_paintGL_unlinked {M : Type} (ops : QMatrixOps M) (s : Demo05.OpenGLWidget M)
    (h : s.program = some ⟨false⟩) :
    Demo05.paintGL ops s = (s, [.clearColor, .clear true true]) := by
  simp [Demo05.paintGL, h]

/-- After a failed shader build no later frame of demo 05 issues a draw call. -/
theorem demo05_no_draw_after_failed_build {M : Type} (ops : QMatrixOps M)
    (build : ShaderBuild) (eboName : Nat) (hfail : build.ok = false) (evs : List Event)
    (s : Demo05.OpenGLWidget M) :
    drawCalls (Demo05.paintGL ops (Demo05.run ops evs (Demo05.initializeGL build eboName s).1)).2
      = [] := by
  have hp : (Demo05.run ops evs (Demo05.initializeGL build eboName s).1).program = some ⟨false⟩ := by
    rw [demo05_run_program, demo05_initializeGL_program, hfail]
  rw [demo05_paintGL_unlinked ops _ hp]
  rfl

theorem demo03_loadTexture_program (host : Host) (relativePath : String)
    (s : Demo03.OpenGLWidget) :
    (Demo03.loadTexture host relativePath s).program = s.program := by
  unfold Demo03.loadTexture
  simp only []
  split_ifs <;> rfl

theorem demo03_initializeGL_program (build : ShaderBuild) (host : Host) (eboName : Nat)
    (s : Demo03.OpenGLWidget) :
    (Demo03.initializeGL build host eboName s).1.program = some ⟨build.ok⟩ := by
  rcases build with ⟨_ | _, _ | _, _ | _⟩ <;>
    first
    | rfl
    | exact demo03_loadTexture_program host _ _

/-- In demos 01, 02 and 03 the draw call of `paintGL` does not depend on the outcome of the
shader build: it is issued after every `initializeGL`. -/
theorem flat_demos_draw_whatever_the_build (build : ShaderBuild) (host : Host)
    (eboName : Nat) :
    (Demo01.paintGL (Demo01.initializeGL build
        Demo01.OpenGLWidget.OpenGLWidget).1).map (fun r => drawCalls r.2)
      = some [GLCall.drawArrays 0 3] ∧
    (Demo02.paintGL (Demo02.initializeGL build eboName
        Demo02.OpenGLWidget.OpenGLWidget).1).map (fun r => drawCalls r.2)
      = some [GLCall.drawElements 6 0] ∧
    (Demo03.paintGL (Demo03.initializeGL build host eboName
        Demo03.OpenGLWidget.OpenGLWidget).1).map (fun r => drawCalls r.2)
      = some [GLCall.drawElements 6 0] := by
  have h3 : ∀ s : Demo03.OpenGLWidget, s.program.isSome = true →
      (Demo03.paintGL s).map (fun r => drawCalls r.2) = some [GLCall.drawElements 6 0] := by
    intro s hs
    obtain ⟨p, hp⟩ := Option.isSome_iff_exists.1 hs
    simp only [Demo03.paintGL, hp, Option.map_some']
    cases s.texture <;> rfl
  refine ⟨?_, ?_, h3 _ ?_⟩
  · rcases build with ⟨_ | _, _ | _, _ | _⟩ <;> rfl
  · rcases build with ⟨_ | _, _ | _, _ | _⟩ <;> rfl
  · rw [demo03_initializeGL_program]
    rfl

/-- C5, evaluated where it fails.  With a vertex shader that does not compile,
`initializeGL` of demos 01, 02 and 03 returns early and `setupShaders` of demo 06 only logs;
the next `paintGL` still issues its draw calls: `glDrawArrays(0, 3)` in demo 01,
`glDrawElements(6, 0)` in demos 02 and 03, and the six face draws in demo 06. -/
theorem c5_draw_calls_issued_after_failed_shader_build :
    (Demo01.paintGL (Demo01.initializeGL ⟨false, true, true⟩
        Demo01.OpenGLWidget.OpenGLWidget).1).map (fun r => drawCalls r.2)
      = some [GLCall.drawArrays 0 3] ∧
    (Demo02.paintGL (Demo02.initializeGL ⟨false, true, true⟩ 1
        Demo02.OpenGLWidget.OpenGLWidget).1).map (fun r => drawCalls r.2)
      = some [GLCall.drawElements 6 0] ∧
    (Demo03.paintGL (Demo03.initializeGL ⟨false, true, true⟩ ⟨"/app", "/", fun _ => (false, ⟨[]⟩),
        fun image _ => image⟩ 1
        Demo03.OpenGLWidget.OpenGLWidget).1).map (fun r => drawCalls r.2)
      = some [GLCall.drawElements 6 0] ∧
    (Demo06.paintGL symbolicOps (Demo06.initializeGL ⟨false, false, false⟩
        ⟨"/app", "/", fun _ => (false, ⟨[]⟩), fun image _ => image⟩ 1
        (Demo06.OpenGLWidget.OpenGLWidget symbolicOps)).1).map (fun r => drawCalls r.2)
      = some [GLCall.drawElements 6 0, GLCall.drawElements 6 24, GLCall.drawElements 6 48,
          GLCall.drawElements 6 72, GLCall.drawElements 6 96, GLCall.drawElements 6 120] := by
  refine ⟨by decide, by decide, by decide, ?_⟩
  rfl

/-! ### `resizeGL` with height zero -/

/-- Dividing by a zero height gives an infinity, or NaN when the width is zero as well. -/
theorem floatDiv_zero_height (w : Int) :
    floatDiv w 0 = (if w = 0 then FloatQuot.nan else FloatQuot.infinite (decide (w < 0))) ∧
    (floatDiv w 0).dividedByZero = true := by
  unfold floatDiv
  by_cases hw : w = 0 <;> simp [hw, FloatQuot.dividedByZero]

/-- The zero matrix and the unit matrix differ. -/
theorem RatMatrix.zero_ne_one : (0 : RatMatrix) ≠ 1 := by
  intro h
  have h00 := congrFun (congrFun h 0) 0
  simp at h00

/-- C6 refuted.  `resizeGL(800, 0)` divides by the zero height: the quotient is +infinity,
and that is the aspect handed to `perspective` in demos 04, 05 and 06.  In none of the
three can the call leave every previous projection matrix in place:
whatever `perspective` computes, the widgets whose projection was the zero matrix and the
unit matrix end with the same projection. -/
theorem c6_resize_zero_height_counterexample :
    (floatDiv 800 0 = FloatQuot.infinite false ∧ (floatDiv 800 0).dividedByZero = true) ∧
    ((Demo04.resizeGL symbolicOps 800 0 (Demo04.OpenGLWidget.OpenGLWidget symbolicOps)).1.projection
        = MatrixExpr.perspective MatrixExpr.identity 45.0 (FloatQuot.infinite false) nearPlane 100.0 ∧
      (Demo05.resizeGL symbolicOps 800 0 (Demo05.OpenGLWidget.OpenGLWidget symbolicOps)).1.projection
        = MatrixExpr.perspective MatrixExpr.identity 45.0 (FloatQuot.infinite false) nearPlane 100.0 ∧
      (Demo06.resizeGL symbolicOps 800 0 (Demo06.OpenGLWidget.OpenGLWidget symbolicOps)).1.projection
        = MatrixExpr.perspective MatrixExpr.identity 45.0 (FloatQuot.infinite false) nearPlane 100.0) ∧
    (¬ ∃ ops : QMatrixOps RatMatrix, ∀ s : Demo04.OpenGLWidget RatMatrix,
      (Demo04.resizeGL ops 800 0 s).1.projection = s.projection) ∧
    (¬ ∃ ops : QMatrixOps RatMatrix, ∀ s : Demo05.OpenGLWidget RatMatrix,
      (Demo05.resizeGL ops 800 0 s).1.projection = s.projection) ∧
    (¬ ∃ ops : QMatrixOps RatMatrix, ∀ s : Demo06.OpenGLWidget RatMatrix,
      (Demo06.resizeGL ops 800 0 s).1.projection = s.projection) := by
  refine ⟨⟨by decide, by decide⟩, ⟨rfl, rfl, rfl⟩, ?_, ?_, ?_⟩
  · rintro ⟨ops, h⟩
    have h0 := h { Demo04.OpenGLWidget.OpenGLWidget ops with projection := 0 }
    have h1 := h { Demo04.OpenGLWidget.OpenGLWidget ops with projection := 1 }
    exact RatMatrix.zero_ne_one (h0.symm.trans h1)
  · rintro ⟨ops, h⟩
    have h0 := h { Demo05.OpenGLWidget.OpenGLWidget ops with projection := 0 }
    have h1 := h { Demo05.OpenGLWidget.OpenGLWidget ops with projection := 1 }
    exact RatMatrix.zero_ne_one (h0.symm.trans h1)
  · rintro ⟨ops, h⟩
    have h0 := h { Demo06.OpenGLWidget.OpenGLWidget ops with projection := 0 }
    have h1 := h { Demo06.OpenGLWidget.OpenGLWidget ops with projection := 1 }
    exact RatMatrix.zero_ne_one (h0.symm.trans h1)

/-- C6 as amended.  For every width `w` and every previous state, `resizeGL(w, 0)` in demos
04, 05 and 06 has no guard on the height: it evaluates `float(w) / float(0)`, which raises
nothing and yields an infinity (NaN for `w = 0`), and it replaces the projection matrix by
`perspective(45, w/0, 0.1f, 100)` applied to the identity (`nearPlane` is the value of the
literal `0.1f`), a value that does not depend on the previous projection matrix. -/
theorem c6_resize_zero_height_overwrites_projection {M : Type} (ops : QMatrixOps M)
    (w : Int) :
    (floatDiv w 0 = (if w = 0 then FloatQuot.nan else FloatQuot.infinite (decide (w < 0))) ∧
      (floatDiv w 0).dividedByZero = true) ∧
    (∀ s : Demo04.OpenGLWidget M, (Demo04.resizeGL ops w 0 s).1.projection
      = ops.perspective ops.identity 45.0 (floatDiv w 0) nearPlane 100.0) ∧
    (∀ s : Demo05.OpenGLWidget M, (Demo05.resizeGL ops w 0 s).1.projection
      = ops.perspective ops.identity 45.0 (floatDiv w 0) nearPlane 100.0) ∧
    (∀ s : Demo06.OpenGLWidget M, (Demo06.resizeGL ops w 0 s).1.projection
      = ops.perspective ops.identity 45.0 (floatDiv w 0) nearPlane 100.0) :=
  ⟨floatDiv_zero_height w, fun _ => rfl, fun _ => rfl, fun _ => rfl⟩

/-! ### The rotation angle of demos 04 and 05 -/

/-- A drawn frame of demo 04 moves the angle one degree on, back to 0 on reaching 360. -/
theorem demo04_paintGL_linked_angle {M : Type} (ops : QMatrixOps M)
    (s : Demo04.OpenGLWidget M) (h : s.program = some ⟨true⟩) :
    (Demo04.paintGL ops s).1.rotationAngle
      = (if s.rotationAngle + 1 ≥ 360 then 0 else s.rotationAngle + 1) ∧
    (Demo04.paintGL ops s).1.program = some ⟨true⟩ := by
  simp [Demo04.paintGL, h]

theorem demo04_paintGL_unlinked_angle {M : Type} (ops : QMatrixOps M)
    (s : Demo04.OpenGLWidget M) (h : s.program = some ⟨false⟩) :
    (Demo04.paintGL ops s).1.rotationAngle = s.rotationAngle ∧
    (Demo04.paintGL ops s).1.program = some ⟨false⟩ := by
  rw [demo04_paintGL_unlinked ops s h]
  exact ⟨rfl, h⟩

/-- Frames drawn one after another: from an angle in [0, 360) the angle after `n` drawn
frames is `(angle + n) mod 360`. -/
theorem demo04_iterate_paintGL_linked {M : Type} (ops : QMatrixOps M)
    (s : Demo04.OpenGLWidget M) (h : s.program = some ⟨true⟩)
    (h0 : 0 ≤ s.rotationAngle) (h1 : s.rotationAngle < 360) (n : Nat) :
    ((fun t => (Demo04.paintGL ops t).1)^[n] s).rotationAngle = (s.rotationAngle + n) % 360 ∧
    ((fun t => (Demo04.paintGL ops t).1)^[n] s).program = some ⟨true⟩ := by
  induction n with
  | zero =>
    refine ⟨?_, h⟩
    simp only [Function.iterate_zero, id_eq, Nat.cast_zero, add_zero]
    omega
  | succ n ih =>
    rw [Function.iterate_succ_apply']
    obtain ⟨ha, hp⟩ := ih
    obtain ⟨ha', hp'⟩ := demo04_paintGL_linked_angle ops _ hp
    refine ⟨?_, hp'⟩
    rw [ha', ha]
    push_cast
    split <;> omega

theorem demo04_iterate_paintGL_unlinked {M : Type} (ops : QMatrixOps M)
    (s : Demo04.OpenGLWidget M) (h : s.program = some ⟨false⟩) (n : Nat) :
    (fun t => (Demo04.paintGL ops t).1)^[n] s = s := by
  induction n with
  | zero => rfl
  | succ n ih => rw [Function.iterate_succ_apply', ih, demo04_paintGL_unlinked ops s h]

/-- Any run of events of demo 04 on a linked widget with its angle in [0, 360): the angle
ends at `(angle + number of paints) mod 360`, the ticks and resizes not counting. -/
theorem demo04_run_linked_angle {M : Type} (ops : QMatrixOps M) (evs : List Event) :
    ∀ s : Demo04.OpenGLWidget M, s.program = some ⟨true⟩ →
      0 ≤ s.rotationAngle → s.rotationAngle < 360 →
      (Demo04.run ops evs s).rotationAngle
        = (s.rotationAngle + (evs.count Event.paint : Nat)) % 360 := by
  induction evs with
  | nil =>
    intro s _ h0 h1
    simp only [Demo04.run, List.count_nil, Nat.cast_zero, add_zero]
    omega
  | cons e es ih =>
    intro s hp h0 h1
    cases e with
    | tick =>
      have := ih s hp h0 h1
      simpa [Demo04.run, Demo04.step, Demo04.updateAnimation] using this
    | resize w h =>
      have := ih (Demo04.resizeGL ops w h s).1 hp h0 h1
      simpa [Demo04.run, Demo04.step, Demo04.resizeGL] using this
    | paint =>
      obtain ⟨ha, hp'⟩ := demo04_paintGL_linked_angle ops s hp
      have hrange : 0 ≤ (Demo04.paintGL ops s).1.rotationAngle ∧
          (Demo04.paintGL ops s).1.rotationAngle < 360 := by
        rw [ha]
        split <;> omega
      have := ih (Demo04.paintGL ops s).1 hp' hrange.1 hrange.2
      simp only [Demo04.run, Demo04.step, List.count_cons_self]
      rw [this, ha]
      push_cast
      split <;> omega

/-- Any run of events of demo 04 on a widget whose program is not linked leaves the angle
where it was. -/
theorem demo04_run_unlinked_angle {M : Type} (ops : QMatrixOps M) (evs : List Event) :
    ∀ s : Demo04.OpenGLWidget M, s.program = some ⟨false⟩ →
      (Demo04.run ops evs s).rotationAngle = s.rotationAngle := by
  induction evs with
  | nil => intro s _; rfl
  | cons e es ih =>
    intro s hp
    cases e with
    | tick => exact ih s hp
    | resize w h => exact ih (Demo04.resizeGL ops w h s).1 hp
    | paint =>
      have h := demo04_paintGL_unlinked ops s hp
      simp only [Demo04.run, Demo04.step, h]
      exact ih s hp

/-- The angle of demo 04 after start-up and any events: the number of paints modulo 360
when the shader build succeeded, 0 when it failed. -/
theorem demo04_angle_after_events {M : Type} (ops : QMatrixOps M) (build : ShaderBuild)
     (evs : List Event) :
    (Demo04.run ops evs
        (Demo04.initializeGL build (Demo04.OpenGLWidget.OpenGLWidget ops)).1).rotationAngle
      = (if build.ok then ((evs.count Event.paint : Nat) : Int) % 360 else 0) := by
  have hp := demo04_initializeGL_program build (Demo04.OpenGLWidget.OpenGLWidget ops)
  have ha := demo04_initializeGL_rotationAngle build (Demo04.OpenGLWidget.OpenGLWidget ops)
  have hz : (Demo04.OpenGLWidget.OpenGLWidget ops).rotationAngle = 0 := rfl
  rw [hz] at ha
  cases hok : build.ok with
  | true =>
    rw [hok] at hp
    rw [demo04_run_linked_angle ops evs _ hp (by omega) (by omega), ha]
    simp
  | false =>
    rw [hok] at hp
    rw [demo04_run_unlinked_angle ops evs _ hp, ha]
    simp

/-- A drawn frame of demo 05 moves the angle one degree on, back to 0 on reaching 360. -/
theorem demo05_paintGL_linked_angle {M : Type} (ops : QMatrixOps M)
    (s : Demo05.OpenGLWidget M) (h : s.program = some ⟨true⟩) :
    (Demo05.paintGL ops s).1.rotationAngle
      = (if s.rotationAngle + 1 ≥ 360 then 0 else s.rotationAngle + 1) ∧
    (Demo05.paintGL ops s).1.program = some ⟨true⟩ := by
  simp [Demo05.paintGL, h]

theorem demo05_paintGL_unlinked_angle {M : Type} (ops : QMatrixOps M)
    (s : Demo05.OpenGLWidget M) (h : s.program = some ⟨false⟩) :
    (Demo05.paintGL ops s).1.rotationAngle = s.rotationAngle ∧
    (Demo05.paintGL ops s).1.program = some ⟨false⟩ := by
  rw [demo05_paintGL_unlinked ops s h]
  exact ⟨rfl, h⟩

/-- Frames drawn one after another: from an angle in [0, 360) the angle after `n` drawn
frames is `(angle + n) mod 360`. -/
theorem demo05_iterate_paintGL_linked {M : Type} (ops : QMatrixOps M)
    (s : Demo05.OpenGLWidget M) (h : s.program = some ⟨true⟩)
    (h0 : 0 ≤ s.rotationAngle) (h1 : s.rotationAngle < 360) (n : Nat) :
    ((fun t => (Demo05.paintGL ops t).1)^[n] s).rotationAngle = (s.rotationAngle + n) % 360 ∧
    ((fun t => (Demo05.paintGL ops t).1)^[n] s).program = some ⟨true⟩ := by
  induction n with
  | zero =>
    refine ⟨?_, h⟩
    simp only [Function.iterate_zero, id_eq, Nat.cast_zero, add_zero]
    omega
  | succ n ih =>
    rw [Function.iterate_succ_apply']
    obtain ⟨ha, hp⟩ := ih
    obtain ⟨ha', hp'⟩ := demo05_paintGL_linked_angle ops _ hp
    refine ⟨?_, hp'⟩
    rw [ha', ha]
    push_cast
    split <;> omega

theorem demo05_iterate_paintGL_unlinked {M : Type} (ops : QMatrixOps M)
    (s : Demo05.OpenGLWidget M) (h : s.program = some ⟨false⟩) (n : Nat) :
    (fun t => (Demo05.paintGL ops t).1)^[n] s = s := by
  induction n with
  | zero => rfl
  | succ n ih => rw [Function.iterate_succ_apply', ih, demo05_paintGL_unlinked ops s h]

/-- Any run of events of demo 05 on a linked widget with its angle in [0, 360): the angle
ends at `(angle + number of paints) mod 360`, the ticks and resizes not counting. -/
theorem demo05_run_linked_angle {M : Type} (ops : QMatrixOps M) (evs : List Event) :
    ∀ s : Demo05.OpenGLWidget M, s.program = some ⟨true⟩ →
      0 ≤ s.rotationAngle → s.rotationAngle < 360 →
      (Demo05.run ops evs s).rotationAngle
        = (s.rotationAngle + (evs.count Event.paint : Nat)) % 360 := by
  induction evs with
  | nil =>
    intro s _ h0 h1
    simp only [Demo05.run, List.count_nil, Nat.cast_zero, add_zero]
    omega
  | cons e es ih =>
    intro s hp h0 h1
    cases e with
    | tick =>
      have := ih s hp h0 h1
      simpa [Demo05.run, Demo05.step, Demo05.updateAnimation] using this
    | resize w h =>
      have := ih (Demo05.resizeGL ops w h s).1 hp h0 h1
      simpa [Demo05.run, Demo05.step, Demo05.resizeGL] using this
    | paint =>
      obtain ⟨ha, hp'⟩ := demo05_paintGL_linked_angle ops s hp
      have hrange : 0 ≤ (Demo05.paintGL ops s).1.rotationAngle ∧
          (Demo05.paintGL ops s).1.rotationAngle < 360 := by
        rw [ha]
        split <;> omega
      have := ih (Demo05.paintGL ops s).1 hp' hrange.1 hrange.2
      simp only [Demo05.run, Demo05.step, List.count_cons_self]
      rw [this, ha]
      push_cast
      split <;> omega

/-- Any run of events of demo 05 on a widget whose program is not linked leaves the angle
where it was. -/
theorem demo05_run_unlinked_angle {M : Type} (ops : QMatrixOps M) (evs : List Event) :
    ∀ s : Demo05.OpenGLWidget M, s.program = some ⟨false⟩ →
      (Demo05.run ops evs s).rotationAngle = s.rotationAngle := by
  induction evs with
  | nil => intro s _; rfl
  | cons e es ih =>
    intro s hp
    cases e with
    | tick => exact ih s hp
    | resize w h => exact ih (Demo05.resizeGL ops w h s).1 hp
    | paint =>
      have h := demo05_paintGL_unlinked ops s hp
      simp only [Demo05.run, Demo05.step, h]
      exact ih s hp

/-- The angle of demo 05 after start-up and any events: the number of paints modulo 360
when the shader build succeeded, 0 when it failed. -/
theorem demo05_angle_after_events {M : Type} (ops : QMatrixOps M) (build : ShaderBuild)
    (eboName : Nat) (evs : List Event) :
    (Demo05.run ops evs
        (Demo05.initializeGL build eboName (Demo05.OpenGLWidget.OpenGLWidget ops)).1).rotationAngle
      = (if build.ok then ((evs.count Event.paint : Nat) : Int) % 360 else 0) := by
  have hp := demo05_initializeGL_program build eboName (Demo05.OpenGLWidget.OpenGLWidget ops)
  have ha := demo05_initializeGL_rotationAngle build eboName (Demo05.OpenGLWidget.OpenGLWidget ops)
  have hz : (Demo05.OpenGLWidget.OpenGLWidget ops).rotationAngle = 0 := rfl
  rw [hz] at ha
  cases hok : build.ok with
  | true =>
    rw [hok] at hp
    rw [demo05_run_linked_angle ops evs _ hp (by omega) (by omega), ha]
    simp
  | false =>
    rw [hok] at hp
    rw [demo05_run_unlinked_angle ops evs _ hp, ha]
    simp

/-- In demo 04 a full turn is exact: after start-up and any events, 360 further frames
bring the angle back to the very value it had. -/
theorem demo04_full_turn_exact {M : Type} (ops : QMatrixOps M) (build : ShaderBuild)
     (evs : List Event) :
    ((fun t => (Demo04.paintGL ops t).1)^[360] (Demo04.run ops evs
        (Demo04.initializeGL build (Demo04.OpenGLWidget.OpenGLWidget ops)).1)).rotationAngle
      = (Demo04.run ops evs
        (Demo04.initializeGL build (Demo04.OpenGLWidget.OpenGLWidget ops)).1).rotationAngle := by
  have hp := demo04_initializeGL_program build (Demo04.OpenGLWidget.OpenGLWidget ops)
  have hrun := demo04_run_program ops evs
    (Demo04.initializeGL build (Demo04.OpenGLWidget.OpenGLWidget ops)).1
  have hangle := demo04_angle_after_events ops build evs
  cases hok : build.ok with
  | true =>
    rw [hok] at hp hangle
    have h := demo04_iterate_paintGL_linked ops _ (hrun.trans hp)
      (by rw [hangle]; simp only [if_true]; omega)
      (by rw [hangle]; simp only [if_true]; omega) 360
    rw [h.1]
    simp only [hangle, if_true]
    push_cast
    omega
  | false =>
    rw [hok] at hp
    rw [demo04_iterate_paintGL_unlinked ops _ (hrun.trans hp)]

/-- In demo 04 the angle stays in [0, 360). -/
theorem demo04_angle_in_range {M : Type} (ops : QMatrixOps M) (build : ShaderBuild)
     (evs : List Event) :
    0 ≤ (Demo04.run ops evs
        (Demo04.initializeGL build (Demo04.OpenGLWidget.OpenGLWidget ops)).1).rotationAngle ∧
    (Demo04.run ops evs
        (Demo04.initializeGL build (Demo04.OpenGLWidget.OpenGLWidget ops)).1).rotationAngle
      < 360 := by
  rw [demo04_angle_after_events ops build evs]
  split <;> omega

/-- In demo 05 a full turn is exact: after start-up and any events, 360 further frames
bring the angle back to the very value it had. -/
theorem demo05_full_turn_exact {M : Type} (ops : QMatrixOps M) (build : ShaderBuild)
    (eboName : Nat) (evs : List Event) :
    ((fun t => (Demo05.paintGL ops t).1)^[360] (Demo05.run ops evs
        (Demo05.initializeGL build eboName (Demo05.OpenGLWidget.OpenGLWidget ops)).1)).rotationAngle
      = (Demo05.run ops evs
        (Demo05.initializeGL build eboName (Demo05.OpenGLWidget.OpenGLWidget ops)).1).rotationAngle := by
  have hp := demo05_initializeGL_program build eboName (Demo05.OpenGLWidget.OpenGLWidget ops)
  have hrun := demo05_run_program ops evs
    (Demo05.initializeGL build eboName (Demo05.OpenGLWidget.OpenGLWidget ops)).1
  have hangle := demo05_angle_after_events ops build eboName evs
  cases hok : build.ok with
  | true =>
    rw [hok] at hp hangle
    have h := demo05_iterate_paintGL_linked ops _ (hrun.trans hp)
      (by rw [hangle]; simp only [if_true]; omega)
      (by rw [hangle]; simp only [if_true]; omega) 360
    rw [h.1]
    simp only [hangle, if_true]
    push_cast
    omega
  | false =>
    rw [hok] at hp
    rw [demo05_iterate_paintGL_unlinked ops _ (hrun.trans hp)]

/-- In demo 05 the angle stays in [0, 360). -/
theorem demo05_angle_in_range {M : Type} (ops : QMatrixOps M) (build : ShaderBuild)
    (eboName : Nat) (evs : List Event) :
    0 ≤ (Demo05.run ops evs
        (Demo05.initializeGL build eboName (Demo05.OpenGLWidget.OpenGLWidget ops)).1).rotationAngle ∧
    (Demo05.run ops evs
        (Demo05.initializeGL build eboName (Demo05.OpenGLWidget.OpenGLWidget ops)).1).rotationAngle
      < 360 := by
  rw [demo05_angle_after_events ops build eboName evs]
  split <;> omega

/-! ### The rotation angle of demo 06 -/

theorem demo06_updateAnimation_angle {M : Type} (s : Demo06.OpenGLWidget M) :
    (Demo06.updateAnimation s).1.rotationAngle
      = (if s.rotationAngle + 1 > 360 then s.rotationAngle + 1 - 360
          else s.rotationAngle + 1) := rfl

/-- Ticks from angle 0: the angle after `n > 0` ticks is `(n - 1) mod 360 + 1`, a value in
[1, 360]; 0 is never seen again. -/
theorem demo06_iterate_tick_from_zero {M : Type} (s : Demo06.OpenGLWidget M)
    (h : s.rotationAngle = 0) (n : Nat) :
    ((fun t => (Demo06.updateAnimation t).1)^[n] s).rotationAngle
      = (if n = 0 then 0 else ((n : Int) - 1) % 360 + 1) := by
  induction n with
  | zero => simpa using h
  | succ n ih =>
    rw [Function.iterate_succ_apply', demo06_updateAnimation_angle, ih]
    push_cast
    split_ifs <;> omega

/-- Ticks from an angle in [1, 360]: the angle after `n` ticks is
`(angle - 1 + n) mod 360 + 1`. -/
theorem demo06_iterate_tick_in_cycle {M : Type} (s : Demo06.OpenGLWidget M)
    (h1 : 1 ≤ s.rotationAngle) (h2 : s.rotationAngle ≤ 360) (n : Nat) :
    ((fun t => (Demo06.updateAnimation t).1)^[n] s).rotationAngle
      = (s.rotationAngle - 1 + n) % 360 + 1 := by
  induction n with
  | zero =>
    simp only [Function.iterate_zero, id_eq, Nat.cast_zero, add_zero]
    omega
  | succ n ih =>
    rw [Function.iterate_succ_apply', demo06_updateAnimation_angle, ih]
    push_cast
    split_ifs <;> omega

/-- In demo 06 a full turn is exact from every angle in [1, 360]. -/
theorem demo06_full_turn_exact_in_cycle {M : Type} (s : Demo06.OpenGLWidget M)
    (h1 : 1 ≤ s.rotationAngle) (h2 : s.rotationAngle ≤ 360) :
    ((fun t => (Demo06.updateAnimation t).1)^[360] s).rotationAngle = s.rotationAngle := by
  rw [demo06_iterate_tick_in_cycle s h1 h2 360]
  push_cast
  omega

theorem demo06_run_ticks {M : Type} (ops : QMatrixOps M) (n : Nat) :
    ∀ s : Demo06.OpenGLWidget M,
      Demo06.run ops (List.replicate n Event.tick) s
        = some ((fun t => (Demo06.updateAnimation t).1)^[n] s) := by
  induction n with
  | zero => intro s; rfl
  | succ n ih =>
    intro s
    rw [List.replicate_succ, Function.iterate_succ_apply]
    simpa [Demo06.run, Demo06.step] using ih (Demo06.updateAnimation s).1

/-- In demo 06 the angle stays in [0, 360], both ends included. -/
theorem demo06_run_angle_bounds {M : Type} (ops : QMatrixOps M) (evs : List Event) :
    ∀ (s : Demo06.OpenGLWidget M) (p : QOpenGLShaderProgram), s.program = some p →
      0 ≤ s.rotationAngle → s.rotationAngle ≤ 360 →
      ∃ s', Demo06.run ops evs s = some s' ∧ 0 ≤ s'.rotationAngle ∧ s'.rotationAngle ≤ 360 := by
  induction evs with
  | nil => intro s p _ h0 h1; exact ⟨s, rfl, h0, h1⟩
  | cons e es ih =>
    intro s p hp h0 h1
    cases e with
    | tick =>
      have ha := demo06_updateAnimation_angle s
      obtain ⟨s', hs, hb⟩ := ih (Demo06.updateAnimation s).1 p hp
        (by rw [ha]; split <;> omega) (by rw [ha]; split <;> omega)
      exact ⟨s', by simpa [Demo06.run, Demo06.step] using hs, hb⟩
    | paint =>
      obtain ⟨r, hr, hrp, _, hra⟩ := demo06_paintGL_effect ops s p hp
      obtain ⟨s', hs, hb⟩ := ih r.1 p (hrp.trans hp) (by rw [hra]; exact h0)
        (by rw [hra]; exact h1)
      exact ⟨s', by simpa [Demo06.run, Demo06.step, hr] using hs, hb⟩
    | resize w h =>
      obtain ⟨s', hs, hb⟩ := ih (Demo06.resizeGL ops w h s).1 p hp h0 h1
      exact ⟨s', by simpa [Demo06.run, Demo06.step] using hs, hb⟩

/-! ### Claims about the rotation angle -/

/-- C7, evaluated where it fails.  In demo 06 the constructor sets the angle to 0, and 360
calls of `updateAnimation` from there leave it at 360, not at 0: the test
`rotationAngle > 360.0f` lets the value 360 through, where demos 04 and 05 test
`>= 360.0f` and return exactly (`demo04_full_turn_exact`, `demo05_full_turn_exact`). -/
theorem c7_demo06_full_turn_from_zero_ends_at_360 :
    (Demo06.OpenGLWidget.OpenGLWidget symbolicOps).rotationAngle = 0 ∧
    ((fun t => (Demo06.updateAnimation t).1)^[360]
      (Demo06.OpenGLWidget.OpenGLWidget symbolicOps)).rotationAngle = 360 := by
  refine ⟨rfl, ?_⟩
  rw [demo06_iterate_tick_from_zero _ rfl 360]
  decide

/-- C8. From the constructor's angle 0, 360 advance steps of one degree end at an angle
congruent to 0 modulo 360 in each animated demo: 360 frames after `initializeGL` in demos
04 and 05 (whatever the shader build answered), 360 ticks in demo 06, counted from the
constructor or from `initializeGL`. -/
theorem c8_full_turn_congruent_to_initial_angle {M : Type} (ops : QMatrixOps M)
    (build : ShaderBuild) (host : Host) (eboName : Nat) :
    ((Demo04.OpenGLWidget.OpenGLWidget ops).rotationAngle = 0 ∧
      ((fun t => (Demo04.paintGL ops t).1)^[360]
        (Demo04.initializeGL build (Demo04.OpenGLWidget.OpenGLWidget ops)).1).rotationAngle % 360
      = (Demo04.OpenGLWidget.OpenGLWidget ops).rotationAngle % 360) ∧
    ((Demo05.OpenGLWidget.OpenGLWidget ops).rotationAngle = 0 ∧
      ((fun t => (Demo05.paintGL ops t).1)^[360]
        (Demo05.initializeGL build eboName
          (Demo05.OpenGLWidget.OpenGLWidget ops)).1).rotationAngle % 360
      = (Demo05.OpenGLWidget.OpenGLWidget ops).rotationAngle % 360) ∧
    ((Demo06.OpenGLWidget.OpenGLWidget ops).rotationAngle = 0 ∧
      ((fun t => (Demo06.updateAnimation t).1)^[360]
        (Demo06.OpenGLWidget.OpenGLWidget ops)).rotationAngle % 360
      = (Demo06.OpenGLWidget.OpenGLWidget ops).rotationAngle % 360 ∧
      ((fun t => (Demo06.updateAnimation t).1)^[360]
        (Demo06.initializeGL build host eboName
          (Demo06.OpenGLWidget.OpenGLWidget ops)).1).rotationAngle % 360
      = (Demo06.OpenGLWidget.OpenGLWidget ops).rotationAngle % 360) := by
  refine ⟨⟨rfl, ?_⟩, ⟨rfl, ?_⟩, rfl, ?_, ?_⟩
  · have h := demo04_full_turn_exact ops build []
    simp only [Demo04.run] at h
    rw [h, demo04_initializeGL_rotationAngle]
  · have h := demo05_full_turn_exact ops build eboName []
    simp only [Demo05.run] at h
    rw [h, demo05_initializeGL_rotationAngle]
  · rw [demo06_iterate_tick_from_zero _ rfl 360]
    show _ = (0 : Int) % 360
    decide
  · rw [demo06_iterate_tick_from_zero _ (demo06_initializeGL_rotationAngle build host eboName _)
      360]
    show _ = (0 : Int) % 360
    decide

/-- C9, evaluated where it fails.  In demo 06, 360 timer ticks after `initializeGL` leave
`rotationAngle` at 360, outside [0, 360): `updateAnimation` wraps only when the angle is
strictly above 360.  Demos 04 and 05 stay inside the interval (`demo04_angle_in_range`,
`demo05_angle_in_range`). -/
theorem c9_demo06_angle_reaches_360 :
    (Demo06.run symbolicOps (List.replicate 360 Event.tick)
      (Demo06.initializeGL ShaderBuild.success emptyHost 1
        (Demo06.OpenGLWidget.OpenGLWidget symbolicOps)).1).map (fun s => s.rotationAngle)
      = some 360 := by
  rw [demo06_run_ticks, Option.map_some', demo06_iterate_tick_from_zero _ rfl 360]
  decide

/-- The call history `loadSingleTextureOrFallback` leaves on the texture it returns. -/
theorem demo06_loadSingleTextureOrFallback_calls (host : Host) (filePath fallbackText : String) :
    Demo06.loadSingleTextureOrFallback host filePath fallbackText
      = some ⟨[.setData ((Demo06.sourceImage host filePath fallbackText).mirrored false true),
          .setMinificationFilter .LinearMipMapLinear, .setMagnificationFilter .Linear,
          .setWrapModeIn .DirectionS .Repeat, .setWrapModeIn .DirectionT .Repeat,
          .generateMipMaps]⟩ := by
  unfold Demo06.loadSingleTextureOrFallback Demo06.sourceImage
  simp only []
  split_ifs <;> rfl

/-- The call history `loadTexture` leaves on the texture of demo 03. -/
theorem demo03_loadTexture_calls (host : Host) (relativePath : String)
    (s : Demo03.OpenGLWidget) :
    (Demo03.loadTexture host relativePath s).texture
      = some ⟨[.setData ((Demo03.sourceImage host relativePath).mirrored false true),
          .setMinificationFilter .Nearest, .setMagnificationFilter .Linear,
          .setWrapMode .Repeat]⟩ := by
  unfold Demo03.loadTexture Demo03.sourceImage
  simp only []
  split_ifs <;> rfl

theorem mirrored_vertical (image : QImage) :
    image.mirrored false true = verticalMirror image := rfl

/-- Row `y` of the vertical mirror is row `height - 1 - y` of the image. -/
theorem verticalMirror_pixel (image : QImage) (x y : Nat) (hy : y < image.rows.length) :
    (verticalMirror image).pixel x y = image.pixel x (image.rows.length - 1 - y) := by
  simp only [QImage.pixel, verticalMirror]
  rw [List.getElem?_reverse hy]

/-- C11. Both texture loaders upload the vertical mirror of their image on both branches:
demo 06 uploads the mirror of the decoded image when `load` succeeds and the mirror of the
labelled fallback square otherwise; demo 03 uploads the mirror of the decoded image when
`load` succeeds with a non-null image and the mirror of the checkerboard otherwise.  The
mirror has the rows of the image in reverse order, each row unchanged. -/
theorem c11_vertical_flip_on_every_branch (host : Host) :
    (∀ filePath fallbackText : String, ∃ t,
      Demo06.loadSingleTextureOrFallback host filePath fallbackText = some t ∧
      t.uploaded = some (verticalMirror
        (if (QImage.load host filePath).1 then (QImage.load host filePath).2
          else host.drawText (QImage.filled 256 256 ⟨240, 240, 240⟩) fallbackText))) ∧
    (∀ (relativePath : String) (s : Demo03.OpenGLWidget), ∃ t,
      (Demo03.loadTexture host relativePath s).texture = some t ∧
      t.uploaded = some (verticalMirror
        (if (QImage.load host (QDir.filePath host.applicationDirPath relativePath)).1 &&
            !(QImage.load host (QDir.filePath host.applicationDirPath relativePath)).2.isNull
          then (QImage.load host (QDir.filePath host.applicationDirPath relativePath)).2
          else Demo03.checkerboardImage))) ∧
    (∀ image : QImage, (verticalMirror image).rows = image.rows.reverse) := by
  refine ⟨?_, ?_, fun _ => rfl⟩
  · intro filePath fallbackText
    exact ⟨_, demo06_loadSingleTextureOrFallback_calls host filePath fallbackText, rfl⟩
  · intro relativePath s
    exact ⟨_, demo03_loadTexture_calls host relativePath s, rfl⟩

/-! ### Path resolution -/

theorem isAbsolutePath_append (dir rest : String) (h : isAbsolutePath dir = true) :
    isAbsolutePath (dir ++ rest) = true := by
  unfold isAbsolutePath at h ⊢
  simp only [String.toList, String.data_append]
  simp only [String.toList] at h
  revert h
  cases dir.data with
  | nil => simp
  | cons c cs =>
    intro h
    simp only [List.cons_append]
    split at h
    · rename_i heq
      cases heq
      rfl
    · rename_i heq
      cases heq
      rfl
    · cases h

theorem QDir.filePath_absolute (dir fileName : String) (h : isAbsolutePath dir = true) :
    isAbsolutePath (QDir.filePath dir fileName) = true := by
  unfold QDir.filePath
  split_ifs with hf
  · exact hf
  · rw [String.append_assoc]
    exact isAbsolutePath_append dir _ h

/-- Demo 03 decodes the path joined onto the application directory; with that directory
absolute, the texture it loads is the same from every working directory. -/
theorem demo03_loadTexture_independent_of_working_directory (host : Host) (cwd : String)
    (relativePath : String) (s : Demo03.OpenGLWidget)
    (h : isAbsolutePath host.applicationDirPath = true) :
    Demo03.loadTexture { host with currentPath := cwd } relativePath s
      = Demo03.loadTexture host relativePath s := by
  have habs := QDir.filePath_absolute host.applicationDirPath relativePath h
  have hload : ∀ c : String,
      QImage.load { host with currentPath := c }
          (QDir.filePath host.applicationDirPath relativePath)
        = host.decode (QDir.filePath host.applicationDirPath relativePath) := by
    intro c
    simp only [QImage.load]
    conv_lhs => rw [QDir.filePath, if_pos habs]
  have h1 := hload cwd
  have h2 := hload host.currentPath
  unfold Demo03.loadTexture
  simp only [] at h1 h2 ⊢
  rw [h1]
  have h3 : QImage.load host (QDir.filePath host.applicationDirPath relativePath)
      = host.decode (QDir.filePath host.applicationDirPath relativePath) := h2
  rw [h3]

/-- C12, evaluated where it fails.  Demo 06 hands the relative name
`textures/dice_face_1.png` to `QImage::load` as it is.  With the executable in `/app` and
the file at `/app/textures/dice_face_1.png`, the same call loads the file when the working
directory is `/app` and falls back to the labelled square when it is `/home`: the path
decoded is the name joined onto the working directory, not onto the application
directory. -/
theorem c12_demo06_load_depends_on_working_directory :
    ((sampleHost "/app").applicationDirPath = (sampleHost "/home").applicationDirPath ∧
      (sampleHost "/app").decode = (sampleHost "/home").decode) ∧
    (QDir.filePath (sampleHost "/home").currentPath "textures/dice_face_1.png"
        = "/home/textures/dice_face_1.png" ∧
      QDir.filePath (sampleHost "/home").applicationDirPath "textures/dice_face_1.png"
        = "/app/textures/dice_face_1.png") ∧
    (Demo06.loadSingleTextureOrFallback (sampleHost "/app")
        "textures/dice_face_1.png" "1").bind QOpenGLTexture.uploaded
      = some (verticalMirror sampleImage) ∧
    (Demo06.loadSingleTextureOrFallback (sampleHost "/home")
        "textures/dice_face_1.png" "1").bind QOpenGLTexture.uploaded
      = some (verticalMirror (QImage.filled 256 256 ⟨240, 240, 240⟩)) ∧
    Demo06.loadSingleTextureOrFallback (sampleHost "/app") "textures/dice_face_1.png" "1"
      ≠ Demo06.loadSingleTextureOrFallback (sampleHost "/home")
          "textures/dice_face_1.png" "1" := by
  have hA : QImage.load (sampleHost "/app") "textures/dice_face_1.png"
      = (true, sampleImage) := by decide
  have hH : QImage.load (sampleHost "/home") "textures/dice_face_1.png"
      = (false, ⟨[]⟩) := by decide
  have hsA : Demo06.sourceImage (sampleHost "/app") "textures/dice_face_1.png" "1"
      = sampleImage := by
    simp only [Demo06.sourceImage, hA, if_true]
  have hsH : Demo06.sourceImage (sampleHost "/home") "textures/dice_face_1.png" "1"
      = QImage.filled 256 256 ⟨240, 240, 240⟩ := by
    simp only [Demo06.sourceImage, hH]
    rfl
  refine ⟨⟨rfl, rfl⟩, ⟨by decide, by decide⟩, ?_, ?_, ?_⟩
  · rw [demo06_loadSingleTextureOrFallback_calls, hsA]
    rfl
  · rw [demo06_loadSingleTextureOrFallback_calls, hsH]
    rfl
  · rw [demo06_loadSingleTextureOrFallback_calls, demo06_loadSingleTextureOrFallback_calls,
      hsA, hsH]
    intro h
    have hlen := congrArg (fun t => (t.bind QOpenGLTexture.uploaded).map
      (fun image => image.rows.length)) h
    have hfilled : ((QImage.filled 256 256 ⟨240, 240, 240⟩).mirrored false true).rows.length
        = 256 := by
      rw [mirrored_vertical]
      simp only [verticalMirror, QImage.filled, List.length_reverse, List.length_replicate]
    have hsample : (sampleImage.mirrored false true).rows.length = 1 := rfl
    simp only [Option.bind, QOpenGLTexture.uploaded, List.foldl, Option.map, hfilled,
      hsample] at hlen
    exact absurd hlen (by decide)

/-! ### The quad of demo 03 -/

theorem demo03_positions :
    Demo03.position 0 = (1/2, 1/2, 0) ∧ Demo03.position 1 = (1/2, -1/2, 0) ∧
    Demo03.position 2 = (-1/2, -1/2, 0) ∧ Demo03.position 3 = (-1/2, 1/2, 0) := by
  refine ⟨?_, ?_, ?_, ?_⟩ <;>
    norm_num [Demo03.position, attributeValue, Demo03.vertices, Demo03.stride, sizeofFloat]

theorem demo03_uvs :
    Demo03.uv 0 = (1, 1) ∧ Demo03.uv 1 = (1, 0) ∧ Demo03.uv 2 = (0, 0) ∧
    Demo03.uv 3 = (0, 1) := by
  refine ⟨?_, ?_, ?_, ?_⟩ <;>
    norm_num [Demo03.uv, attributeValue, Demo03.vertices, Demo03.stride, sizeofFloat]

/-- C13. The quad of demo 03 is tiled by its two indexed triangles.  The six indices give
the triangles (0,1,3) and (1,2,3), which share exactly the vertices 1 and 3; the four
vertices are the corners of the square [-1/2, 1/2]^2 in the plane z = 0; vertices 0 and 2
lie strictly on opposite sides of the diagonal through 1 and 3; the two areas add up to
the area of the square; every texture coordinate is (x + 1/2, y + 1/2), so in texture
space the same two triangles meet along the diagonal of [0, 1]^2 and their areas add up
to 1. -/
theorem c13_quad_tiled_by_two_triangles :
    (Demo03.indices.length = 6 ∧ triangles Demo03.indices = [(0, 1, 3), (1, 2, 3)] ∧
      [0, 1, 3].filter (fun i => decide (i ∈ [1, 2, 3])) = [1, 3]) ∧
    ((List.range 4).map Demo03.position
      = [(1/2, 1/2, 0), (1/2, -1/2, 0), (-1/2, -1/2, 0), (-1/2, 1/2, 0)]) ∧
    (cross2 (Demo03.xy 1) (Demo03.xy 3) (Demo03.xy 0)
      * cross2 (Demo03.xy 1) (Demo03.xy 3) (Demo03.xy 2) < 0) ∧
    (triangleArea (Demo03.xy 0) (Demo03.xy 1) (Demo03.xy 3)
      + triangleArea (Demo03.xy 1) (Demo03.xy 2) (Demo03.xy 3) = (1/2 - (-1/2)) ^ 2) ∧
    ((List.range 4).map Demo03.uv
      = (List.range 4).map fun i => ((Demo03.xy i).1 + 1/2, (Demo03.xy i).2 + 1/2)) ∧
    (cross2 (Demo03.uv 1) (Demo03.uv 3) (Demo03.uv 0)
      * cross2 (Demo03.uv 1) (Demo03.uv 3) (Demo03.uv 2) < 0) ∧
    (triangleArea (Demo03.uv 0) (Demo03.uv 1) (Demo03.uv 3)
      + triangleArea (Demo03.uv 1) (Demo03.uv 2) (Demo03.uv 3) = (1 - 0) ^ 2) := by
  obtain ⟨p0, p1, p2, p3⟩ := demo03_positions
  obtain ⟨t0, t1, t2, t3⟩ := demo03_uvs
  have hr : List.range 4 = [0, 1, 2, 3] := by decide
  refine ⟨⟨by decide, by decide, by decide⟩, ?_, ?_, ?_, ?_, ?_, ?_⟩
  · simp only [hr, List.map, p0, p1, p2, p3]
  · simp only [Demo03.xy, p0, p1, p2, p3, cross2]
    norm_num
  · simp only [Demo03.xy, p0, p1, p2, p3, cross2, triangleArea]
    norm_num
  · simp only [hr, List.map, Demo03.xy, p0, p1, p2, p3, t0, t1, t2, t3]
    norm_num
  · simp only [t0, t1, t2, t3, cross2]
    norm_num
  · simp only [t0, t1, t2, t3, cross2, triangleArea]
    norm_num

/-! ### The dice layout of demo 06 -/

theorem demo06_loadTextures_requests {M : Type} (host : Host) (s : Demo06.OpenGLWidget M) :
    (Demo06.loadTextures host s).textures
      = Demo06.faceRequests.map fun r => Demo06.loadSingleTextureOrFallback host r.1 r.2 :=
  rfl

/-- The positions of the 24 vertices of demo 06, face by face. -/
theorem demo06_positions :
    (List.range 24).map Demo06.position = [
      (-1/2, -1/2, 1/2), (1/2, -1/2, 1/2), (1/2, 1/2, 1/2), (-1/2, 1/2, 1/2),
      (-1/2, -1/2, -1/2), (1/2, -1/2, -1/2), (1/2, 1/2, -1/2), (-1/2, 1/2, -1/2),
      (-1/2, 1/2, 1/2), (1/2, 1/2, 1/2), (1/2, 1/2, -1/2), (-1/2, 1/2, -1/2),
      (-1/2, -1/2, -1/2), (1/2, -1/2, -1/2), (1/2, -1/2, 1/2), (-1/2, -1/2, 1/2),
      (1/2, -1/2, 1/2), (1/2, -1/2, -1/2), (1/2, 1/2, -1/2), (1/2, 1/2, 1/2),
      (-1/2, -1/2, -1/2), (-1/2, -1/2, 1/2), (-1/2, 1/2, 1/2), (-1/2, 1/2, -1/2)] := by
  have hr : List.range 24 = [0, 1, 2, 3, 4, 5, 6, 7, 8, 9, 10, 11, 12, 13, 14, 15, 16, 17,
      18, 19, 20, 21, 22, 23] := by decide
  rw [hr]
  norm_num [Demo06.position, attributeValue, Demo06.cubeVertices, Demo06.stride, sizeofFloat]

/-- The 24 positions one by one. -/
theorem demo06_position_facts :
    Demo06.position 0 = (-1/2, -1/2, 1/2) ∧
    Demo06.position 1 = (1/2, -1/2, 1/2) ∧
    Demo06.position 2 = (1/2, 1/2, 1/2) ∧
    Demo06.position 3 = (-1/2, 1/2, 1/2) ∧
    Demo06.position 4 = (-1/2, -1/2, -1/2) ∧
    Demo06.position 5 = (1/2, -1/2, -1/2) ∧
    Demo06.position 6 = (1/2, 1/2, -1/2) ∧
    Demo06.position 7 = (-1/2, 1/2, -1/2) ∧
    Demo06.position 8 = (-1/2, 1/2, 1/2) ∧
    Demo06.position 9 = (1/2, 1/2, 1/2) ∧
    Demo06.position 10 = (1/2, 1/2, -1/2) ∧
    Demo06.position 11 = (-1/2, 1/2, -1/2) ∧
    Demo06.position 12 = (-1/2, -1/2, -1/2) ∧
    Demo06.position 13 = (1/2, -1/2, -1/2) ∧
    Demo06.position 14 = (1/2, -1/2, 1/2) ∧
    Demo06.position 15 = (-1/2, -1/2, 1/2) ∧
    Demo06.position 16 = (1/2, -1/2, 1/2) ∧
    Demo06.position 17 = (1/2, -1/2, -1/2) ∧
    Demo06.position 18 = (1/2, 1/2, -1/2) ∧
    Demo06.position 19 = (1/2, 1/2, 1/2) ∧
    Demo06.position 20 = (-1/2, -1/2, -1/2) ∧
    Demo06.position 21 = (-1/2, -1/2, 1/2) ∧
    Demo06.position 22 = (-1/2, 1/2, 1/2) ∧
    Demo06.position 23 = (-1/2, 1/2, -1/2) := by
  have h := demo06_positions
  have hr : List.range 24 = [0, 1, 2, 3, 4, 5, 6, 7, 8, 9, 10, 11, 12, 13, 14, 15, 16, 17,
      18, 19, 20, 21, 22, 23] := by decide
  simp only [hr, List.map, List.cons.injEq, and_true] at h
  exact h

/-- The 24 texture coordinates one by one. -/
theorem demo06_uv_facts :
    Demo06.uv 0 = (0, 0) ∧
    Demo06.uv 1 = (1, 0) ∧
    Demo06.uv 2 = (1, 1) ∧
    Demo06.uv 3 = (0, 1) ∧
    Demo06.uv 4 = (1, 0) ∧
    Demo06.uv 5 = (0, 0) ∧
    Demo06.uv 6 = (0, 1) ∧
    Demo06.uv 7 = (1, 1) ∧
    Demo06.uv 8 = (0, 0) ∧
    Demo06.uv 9 = (1, 0) ∧
    Demo06.uv 10 = (1, 1) ∧
    Demo06.uv 11 = (0, 1) ∧
    Demo06.uv 12 = (0, 0) ∧
    Demo06.uv 13 = (1, 0) ∧
    Demo06.uv 14 = (1, 1) ∧
    Demo06.uv 15 = (0, 1) ∧
    Demo06.uv 16 = (0, 0) ∧
    Demo06.uv 17 = (1, 0) ∧
    Demo06.uv 18 = (1, 1) ∧
    Demo06.uv 19 = (0, 1) ∧
    Demo06.uv 20 = (0, 0) ∧
    Demo06.uv 21 = (1, 0) ∧
    Demo06.uv 22 = (1, 1) ∧
    Demo06.uv 23 = (0, 1) := by
  refine ⟨?_, ?_, ?_, ?_, ?_, ?_, ?_, ?_, ?_, ?_, ?_, ?_, ?_, ?_, ?_, ?_, ?_, ?_, ?_, ?_,
    ?_, ?_, ?_, ?_⟩ <;>
    norm_num [Demo06.uv, attributeValue, Demo06.cubeVertices, Demo06.stride, sizeofFloat]

/-- Each vertex record of face `i` lies on the plane named for slot `i`. -/
theorem demo06_face_vertices_on_plane (i : Fin 6) (k : Fin 4) :
    onFacePlane (Demo06.facePlanes.getD i (Axis.X, true)) (Demo06.position (4 * i + k)) := by
  obtain ⟨p0, p1, p2, p3, p4, p5, p6, p7, p8, p9, p10, p11, p12, p13, p14, p15, p16, p17, p18, p19, p20, p21, p22, p23⟩ := demo06_position_facts
  fin_cases i <;> fin_cases k <;>
    simp [onFacePlane, Axis.coordinate, Demo06.facePlanes, p0, p1, p2, p3, p4, p5, p6, p7, p8, p9, p10, p11, p12, p13, p14, p15, p16, p17, p18, p19, p20, p21, p22, p23]

/-- C14. The dice layout of demo 06.  `loadTextures` fills slot i from the i-th request;
in every request the fallback label is the digit of the file name; the draw of face i
references exactly the vertex records 4i .. 4i+3, and each of them lies on the plane named
for slot i (+Z, -Z, +Y, -Y, +X, -X); the labels are 1, 6, 5, 2, 3, 4, and for every two
slots on opposite planes the labels add up to 7. -/
theorem c14_dice_layout :
    (∀ (M : Type) (host : Host) (s : Demo06.OpenGLWidget M),
      (Demo06.loadTextures host s).textures
        = Demo06.faceRequests.map fun r =>
            Demo06.loadSingleTextureOrFallback host r.1 r.2) ∧
    (Demo06.faceRequests.length = 6 ∧ Demo06.facePlanes.length = 6 ∧
      ∀ r ∈ Demo06.faceRequests, digitsOf r.1 = r.2.toList) ∧
    (∀ i : Fin 6, (List.range 24).filter (fun v => decide (v ∈ Demo06.faceVertices i))
      = List.range' (4 * i) 4) ∧
    (∀ (i : Fin 6) (k : Fin 4),
      onFacePlane (Demo06.facePlanes.getD i (Axis.X, true)) (Demo06.position (4 * i + k))) ∧
    (Demo06.faceRequests.map (fun r => labelValue r.2)
      = [some 1, some 6, some 5, some 2, some 3, some 4]) ∧
    (∀ i j : Fin 6,
      oppositePlanes (Demo06.facePlanes.getD i (Axis.X, true))
          (Demo06.facePlanes.getD j (Axis.X, true)) = true →
      (labelValue (Demo06.faceRequests.getD i ("", "")).2).bind
          (fun a => (labelValue (Demo06.faceRequests.getD j ("", "")).2).map (a + ·))
        = some 7) := by
  refine ⟨fun _ _ _ => rfl, ⟨rfl, rfl, by decide⟩, by decide, demo06_face_vertices_on_plane,
    by decide, by decide⟩

/-! ### Draw calls and buffer sizes -/

set_option maxRecDepth 8000 in
theorem demo04_vertexCount : vertexCount Demo04.vertices Demo04.stride = 36 := by
  decide

/-- In demos 01, 02 and 03 a frame leaves nothing bound, whatever the state: the program is
released, the `Binder` releases the vertex array object on return, and demos 02 and 03 bind
buffer 0 before they return, into the vertex array object when it was created and into the
context otherwise. -/
theorem flat_frames_release_bindings (stored : Nat)
    (s1 : Demo01.OpenGLWidget) (s2 : Demo02.OpenGLWidget) (s3 : Demo03.OpenGLWidget) :
    (Demo01.paintGL s1).map (fun r => bindingsLeft s1.vao stored r.2)
      = s1.program.map (fun _ => Bindings.released stored) ∧
    (Demo02.paintGL s2).map (fun r => bindingsLeft s2.vao stored r.2)
      = s2.program.map (fun _ => Bindings.released (if s2.vao then 0 else stored)) ∧
    (Demo03.paintGL s3).map (fun r => bindingsLeft s3.vao stored r.2)
      = s3.program.map (fun _ => Bindings.released (if s3.vao then 0 else stored)) := by
  refine ⟨?_, ?_, ?_⟩
  · cases h : s1.program <;> cases hv : s1.vao <;>
      simp [Demo01.paintGL, h, bindingsLeft, Bindings.after, Bindings.released]
  · cases h : s2.program <;> cases hv : s2.vao <;>
      simp [Demo02.paintGL, h, bindingsLeft, Bindings.after, Bindings.released]
  · cases h : s3.program <;> cases hv : s3.vao <;> cases ht : s3.texture <;>
      simp [Demo03.paintGL, h, ht, bindingsLeft, Bindings.after, Bindings.released]

/-- In demos 04 and 05 a frame leaves nothing bound, on the drawing path and on the early
return; the vertex array object keeps the element buffer it recorded. -/
theorem cube_frames_release_bindings {M : Type} (ops : QMatrixOps M) (stored : Nat)
    (s4 : Demo04.OpenGLWidget M) (s5 : Demo05.OpenGLWidget M) :
    bindingsLeft s4.vao stored (Demo04.paintGL ops s4).2 = Bindings.released stored ∧
    bindingsLeft s5.vao stored (Demo05.paintGL ops s5).2 = Bindings.released stored := by
  constructor
  · rcases h : s4.program with _ | ⟨_ | _⟩ <;> cases hv : s4.vao <;>
      simp [Demo04.paintGL, h, bindingsLeft, Bindings.after, Bindings.released]
  · rcases h : s5.program with _ | ⟨_ | _⟩ <;> cases hv : s5.vao <;>
      simp [Demo05.paintGL, h, bindingsLeft, Bindings.after, Bindings.released]

theorem bindingsLeft_drawFace (textures : List (Option QOpenGLTexture)) (i : Nat)
    (vaoCreated : Bool) (b : Bindings) :
    (Demo06.drawFace textures i).foldl (Bindings.after vaoCreated) b = { b with texture :=
      if (textures.getD i none).isSome then none else b.texture } := by
  unfold Demo06.drawFace
  split <;> rfl

/-- A frame of demo 06, whatever the state: the program, the vertex array object and every
texture it bound are released.  `glBindBuffer(GL_ELEMENT_ARRAY_BUFFER, ebo)` is issued while
the vertex array object is bound, so when that object was created the buffer is recorded in
it and `vao.release()` takes it out of the context; only with a vertex array object that
was never created would the buffer stay bound in the context. -/
theorem demo06_paintGL_bindings {M : Type} (ops : QMatrixOps M) (stored : Nat)
    (s : Demo06.OpenGLWidget M) :
    (Demo06.paintGL ops s).map (fun r => bindingsLeft s.vao stored r.2)
      = s.program.map (fun _ =>
          if s.vao then Bindings.released s.ebo else ⟨false, false, s.ebo, stored, none⟩) := by
  cases hp : s.program with
  | none => simp [Demo06.paintGL, hp]
  | some p =>
    have hr : List.range 6 = [0, 1, 2, 3, 4, 5] := by decide
    simp only [Demo06.paintGL, hp, Option.map_some', bindingsLeft, List.foldl_append, hr,
      List.flatMap_cons, List.flatMap_nil, List.append_nil, bindingsLeft_drawFace]
    cases hv : s.vao <;> simp [Bindings.after, Bindings.released]

/-- The events of the Qt loop leave the vertex array object and the element buffer name of
demo 06 as they are. -/
theorem demo06_run_buffers {M : Type} (ops : QMatrixOps M) (evs : List Event) :
    ∀ s s' : Demo06.OpenGLWidget M, Demo06.run ops evs s = some s' →
      s'.vao = s.vao ∧ s'.ebo = s.ebo := by
  induction evs with
  | nil =>
    intro s s' h
    simp only [Demo06.run, Option.some.injEq] at h
    subst h
    exact ⟨rfl, rfl⟩
  | cons e es ih =>
    intro s s' h
    cases e with
    | tick => exact ih (Demo06.updateAnimation s).1 s' (by simpa [Demo06.run, Demo06.step] using h)
    | resize w h' =>
      exact ih (Demo06.resizeGL ops w h' s).1 s' (by simpa [Demo06.run, Demo06.step] using h)
    | paint =>
      cases hp : s.program with
      | none => simp [Demo06.run, Demo06.step, Demo06.paintGL, hp] at h
      | some p =>
        simp only [Demo06.run, Demo06.step, Demo06.paintGL, hp, Option.map_some',
          Option.some_bind] at h
        have hk := ih _ s' h
        exact hk

theorem demo06_initializeGL_buffers {M : Type} (build : ShaderBuild) (host : Host)
    (eboName : Nat) (s : Demo06.OpenGLWidget M) :
    (Demo06.initializeGL build host eboName s).1.vao = true ∧
    (Demo06.initializeGL build host eboName s).1.ebo = eboName := ⟨rfl, rfl⟩

/-- C16. Bound state does not leak out of a frame.  In every state of demos 01 to 05 the
calls of `paintGL` end with nothing bound in the context, on the drawing path and on the
early return of demos 04 and 05: the program and the vertex array object are released,
demo 03 releases its texture, and demos 02 and 03 bind element buffer 0 again.  In demo 06,
after `initializeGL` (whatever the shader build and the image files gave) and any further
events, `paintGL` returns with the program, the vertex array object and all six textures
released; its `glBindBuffer(GL_ELEMENT_ARRAY_BUFFER, ebo)` is issued while the vertex array
object is bound, so the buffer is recorded in that object, as `setupCubeData` had it, and
`vao.release()` leaves no element buffer bound in the context. -/
theorem c16_frames_leave_nothing_bound {M : Type} (ops : QMatrixOps M)
    (build : ShaderBuild) (host : Host) (eboName stored : Nat) (evs : List Event)
    (s1 : Demo01.OpenGLWidget) (s2 : Demo02.OpenGLWidget) (s3 : Demo03.OpenGLWidget)
    (s4 : Demo04.OpenGLWidget M) (s5 : Demo05.OpenGLWidget M) :
    ((Demo01.paintGL s1).map (fun r => bindingsLeft s1.vao stored r.2)
        = s1.program.map (fun _ => Bindings.released stored) ∧
      (Demo02.paintGL s2).map (fun r => bindingsLeft s2.vao stored r.2)
        = s2.program.map (fun _ => Bindings.released (if s2.vao then 0 else stored)) ∧
      (Demo03.paintGL s3).map (fun r => bindingsLeft s3.vao stored r.2)
        = s3.program.map (fun _ => Bindings.released (if s3.vao then 0 else stored))) ∧
    (bindingsLeft s4.vao stored (Demo04.paintGL ops s4).2 = Bindings.released stored ∧
      bindingsLeft s5.vao stored (Demo05.paintGL ops s5).2 = Bindings.released stored) ∧
    (∃ s r,
      Demo06.run ops evs
          (Demo06.initializeGL build host eboName (Demo06.OpenGLWidget.OpenGLWidget ops)).1
        = some s ∧
      Demo06.paintGL ops s = some r ∧
      s.vao = true ∧ s.ebo = eboName ∧
      bindingsLeft s.vao stored r.2 = Bindings.released eboName) ∧
    (∀ n : Nat, (Bindings.released n).nothingBound = true ∧
      (Bindings.released n).boundElementBuffer = 0) := by
  refine ⟨flat_frames_release_bindings stored s1 s2 s3,
    cube_frames_release_bindings ops stored s4 s5, ?_, fun n => ⟨rfl, rfl⟩⟩
  obtain ⟨s, hs, hprog, _, _⟩ :=
    demo06_run_effect ops evs
      (Demo06.initializeGL build host eboName (Demo06.OpenGLWidget.OpenGLWidget ops)).1
      ⟨build.links⟩ (demo06_initializeGL_program build host eboName _)
  obtain ⟨hvao, hebo⟩ := demo06_run_buffers ops evs _ s hs
  obtain ⟨hv0, he0⟩ :=
    demo06_initializeGL_buffers build host eboName (Demo06.OpenGLWidget.OpenGLWidget ops)
  have hv : s.vao = true := hvao.trans hv0
  have he : s.ebo = eboName := hebo.trans he0
  have hp : s.program = some ⟨build.links⟩ :=
    hprog.trans (demo06_initializeGL_program build host eboName _)
  have hb := demo06_paintGL_bindings ops stored s
  cases hr : Demo06.paintGL ops s with
  | none => simp [Demo06.paintGL, hp] at hr
  | some r =>
    rw [hr, hp] at hb
    simp only [Option.map_some', Option.some.injEq, hv, if_true, he] at hb
    refine ⟨s, r, hs, hr, hv, he, ?_⟩
    rw [hv]
    exact hb

/-! ### Depth test and depth clear -/

theorem clearCalls_append (a b : List GLCall) :
    clearCalls (a ++ b) = clearCalls a ++ clearCalls b := by
  induction a with
  | nil => rfl
  | cons c a ih => cases c <;> simp [clearCalls, ih]

theorem clearCalls_drawFace (textures : List (Option QOpenGLTexture)) (i : Nat) :
    clearCalls (Demo06.drawFace textures i) = [] := by
  unfold Demo06.drawFace
  split <;> rfl

/-- Which `initializeGL` enables the depth test, whatever the widget state, the shader
build and the environment: those of demos 04, 05 and 06 do, those of demos 01, 02 and 03
do not. -/
theorem initializeGL_depth_test {M : Type} (build : ShaderBuild) (host : Host)
    (eboName : Nat) (s1 : Demo01.OpenGLWidget) (s2 : Demo02.OpenGLWidget)
    (s3 : Demo03.OpenGLWidget) (s4 : Demo04.OpenGLWidget M) (s5 : Demo05.OpenGLWidget M)
    (s6 : Demo06.OpenGLWidget M) :
    GLCall.enableDepthTest ∉ (Demo01.initializeGL build s1).2 ∧
    GLCall.enableDepthTest ∉ (Demo02.initializeGL build eboName s2).2 ∧
    GLCall.enableDepthTest ∉ (Demo03.initializeGL build host eboName s3).2 ∧
    GLCall.enableDepthTest ∈ (Demo04.initializeGL build s4).2 ∧
    GLCall.enableDepthTest ∈ (Demo05.initializeGL build eboName s5).2 ∧
    GLCall.enableDepthTest ∈ (Demo06.initializeGL build host eboName s6).2 := by
  refine ⟨?_, ?_, ?_, ?_, ?_, ?_⟩
  · rcases build with ⟨_ | _, _ | _, _ | _⟩ <;>
      simp [Demo01.initializeGL, attributeCalls, Demo01.attributes]
  · rcases build with ⟨_ | _, _ | _, _ | _⟩ <;>
      simp [Demo02.initializeGL, attributeCalls, Demo02.attributes]
  · rcases build with ⟨_ | _, _ | _, _ | _⟩ <;>
      simp [Demo03.initializeGL, attributeCalls, Demo03.attributes]
  · simp [Demo04.initializeGL, Demo04.setupCubeData]
  · simp [Demo05.initializeGL, Demo05.setupCubeData]
  · simp [Demo06.initializeGL, Demo06.setupCubeData]

/-- C17. Depth handling follows the geometry.  `initializeGL` of demos 04, 05 and 06 issues
`glEnable(GL_DEPTH_TEST)` whatever the shader build answers, and every frame of these
demos clears colour and depth, also on the early return; `initializeGL` of demos 01, 02
and 03 never enables the depth test, and their frames clear the colour buffer only and do
not enable the depth test either. -/
theorem c17_depth_handling_matches_geometry {M : Type} (ops : QMatrixOps M)
    (build : ShaderBuild) (host : Host) (eboName : Nat)
    (s1 : Demo01.OpenGLWidget) (s2 : Demo02.OpenGLWidget) (s3 : Demo03.OpenGLWidget)
    (s4 : Demo04.OpenGLWidget M) (s5 : Demo05.OpenGLWidget M) (s6 : Demo06.OpenGLWidget M) :
    (GLCall.enableDepthTest ∈ (Demo04.initializeGL build s4).2 ∧
      clearCalls (Demo04.paintGL ops s4).2 = [(true, true)]) ∧
    (GLCall.enableDepthTest ∈ (Demo05.initializeGL build eboName s5).2 ∧
      clearCalls (Demo05.paintGL ops s5).2 = [(true, true)]) ∧
    (GLCall.enableDepthTest ∈ (Demo06.initializeGL build host eboName s6).2 ∧
      (Demo06.paintGL ops s6).map (fun r => clearCalls r.2)
        = s6.program.map (fun _ => [(true, true)])) ∧
    (GLCall.enableDepthTest ∉ (Demo01.initializeGL build s1).2 ∧
      (Demo01.paintGL s1).map (fun r => (clearCalls r.2, decide (GLCall.enableDepthTest ∈ r.2)))
        = s1.program.map (fun _ => ([(true, false)], false))) ∧
    (GLCall.enableDepthTest ∉ (Demo02.initializeGL build eboName s2).2 ∧
      (Demo02.paintGL s2).map (fun r => (clearCalls r.2, decide (GLCall.enableDepthTest ∈ r.2)))
        = s2.program.map (fun _ => ([(true, false)], false))) ∧
    (GLCall.enableDepthTest ∉ (Demo03.initializeGL build host eboName s3).2 ∧
      (Demo03.paintGL s3).map (fun r => (clearCalls r.2, decide (GLCall.enableDepthTest ∈ r.2)))
        = s3.program.map (fun _ => ([(true, false)], false))) := by
  obtain ⟨d1, d2, d3, d4, d5, d6⟩ :=
    initializeGL_depth_test build host eboName s1 s2 s3 s4 s5 s6
  refine ⟨⟨d4, ?_⟩, ⟨d5, ?_⟩, ⟨d6, ?_⟩, ⟨d1, ?_⟩, ⟨d2, ?_⟩, ⟨d3, ?_⟩⟩
  · rcases h : s4.program with _ | ⟨_ | _⟩ <;> simp [Demo04.paintGL, h, clearCalls]
  · rcases h : s5.program with _ | ⟨_ | _⟩ <;> simp [Demo05.paintGL, h, clearCalls]
  · cases hp : s6.program with
    | none => simp [Demo06.paintGL, hp]
    | some p =>
      have hr : List.range 6 = [0, 1, 2, 3, 4, 5] := by decide
      simp only [Demo06.paintGL, hp, Option.map_some', clearCalls_append, hr,
        List.flatMap_cons, List.flatMap_nil, clearCalls_drawFace, List.append_nil]
      rfl
  · cases h : s1.program <;> simp [Demo01.paintGL, h, clearCalls]
  · cases h : s2.program <;> simp [Demo02.paintGL, h, clearCalls]
  · cases h : s3.program <;> cases ht : s3.texture <;> simp [Demo03.paintGL, h, ht, clearCalls]

/-! ### Order of upload and mipmap generation -/

/-- C18. In `loadSingleTextureOrFallback` the texture receives, on the success branch and on
the fallback branch alike, first `setData` with the mirrored image, then the four sampling
parameters, then `generateMipMaps` as the last call: the one mipmap request comes after
the upload and none comes before it. -/
theorem c18_mipmaps_requested_after_upload (host : Host) (filePath fallbackText : String) :
    ∃ t image, Demo06.loadSingleTextureOrFallback host filePath fallbackText = some t ∧
      image = (if (QImage.load host filePath).1
        then ((QImage.load host filePath).2).mirrored false true
        else (host.drawText (QImage.filled 256 256 ⟨240, 240, 240⟩) fallbackText).mirrored
          false true) ∧
      t.calls = [.setData image,
        .setMinificationFilter .LinearMipMapLinear, .setMagnificationFilter .Linear,
        .setWrapModeIn .DirectionS .Repeat, .setWrapModeIn .DirectionT .Repeat,
        .generateMipMaps] ∧
      t.calls.head? = some (.setData image) ∧
      t.calls.getLast? = some .generateMipMaps ∧
      (t.calls.filter fun c => decide (c = TextureCall.generateMipMaps)).length = 1 ∧
      mipmapsFollowUpload false t.calls = true := by
  refine ⟨_, _, demo06_loadSingleTextureOrFallback_calls host filePath fallbackText, ?_, rfl,
    rfl, rfl, ?_, rfl⟩
  · unfold Demo06.sourceImage
    split_ifs <;> rfl
  · simp [List.filter]

/-! ### The checkerboard of demo 03 -/

theorem checkerboardColor_eq_checkerTone (x y : Nat) :
    Demo03.checkerboardColor x y = checkerTone x y := by
  unfold Demo03.checkerboardColor checkerTone Demo03.tileSize
  rcases Nat.mod_two_eq_zero_or_one (x / 16) with hx | hx <;>
    rcases Nat.mod_two_eq_zero_or_one (y / 16) with hy | hy <;>
    simp [Nat.even_iff, hx, hy]

theorem checkerboardImage_pixel (x y : Nat) (hx : x < 128) (hy : y < 128) :
    Demo03.checkerboardImage.pixel x y = some (Demo03.checkerboardColor x y) := by
  simp [QImage.pixel, Demo03.checkerboardImage, List.getElem?_map, List.getElem?_range hx,
    List.getElem?_range hy]

/-- C19. The checkerboard of demo 03 is a 128 x 128 image whose pixel (x, y) is
RGB(50,50,50) when exactly one of x/16, y/16 is even and RGB(200,200,200) otherwise.
Every pixel has the colour of the top-left pixel of its 16 x 16 tile, two tiles next to
each other in a row or in a column have different colours, and when the decode fails the
texture holds the mirror of this one image whatever path was requested. -/
theorem c19_checkerboard_fallback :
    (Demo03.checkerboardImage.rows.length = 128 ∧
      ∀ row ∈ Demo03.checkerboardImage.rows, row.length = 128) ∧
    (∀ x y : Fin 128, Demo03.checkerboardImage.pixel x y = some (checkerTone x y)) ∧
    (∀ x y : Fin 128, Demo03.checkerboardImage.pixel x y
      = Demo03.checkerboardImage.pixel (16 * (x / 16)) (16 * (y / 16))) ∧
    (∀ (i : Fin 7) (j : Fin 8),
      Demo03.checkerboardColor (16 * (i + 1)) (16 * j) ≠ Demo03.checkerboardColor (16 * i) (16 * j) ∧
      Demo03.checkerboardColor (16 * j) (16 * (i + 1)) ≠ Demo03.checkerboardColor (16 * j) (16 * i)) ∧
    (∀ (host : Host) (relativePath : String) (s : Demo03.OpenGLWidget),
      ((QImage.load host (QDir.filePath host.applicationDirPath relativePath)).1 &&
        !(QImage.load host (QDir.filePath host.applicationDirPath relativePath)).2.isNull)
        = false →
      ((Demo03.loadTexture host relativePath s).texture.bind QOpenGLTexture.uploaded)
        = some (verticalMirror Demo03.checkerboardImage)) := by
  refine ⟨⟨?_, ?_⟩, ?_, ?_, by decide, ?_⟩
  · simp [Demo03.checkerboardImage]
  · intro row hrow
    simp only [Demo03.checkerboardImage, List.mem_map] at hrow
    obtain ⟨y, _, rfl⟩ := hrow
    simp
  · intro x y
    rw [checkerboardImage_pixel x y x.isLt y.isLt, checkerboardColor_eq_checkerTone]
  · intro x y
    have hx : 16 * ((x : Nat) / 16) < 128 := by omega
    have hy : 16 * ((y : Nat) / 16) < 128 := by omega
    rw [checkerboardImage_pixel x y x.isLt y.isLt, checkerboardImage_pixel _ _ hx hy]
    have ex : 16 * ((x : Nat) / 16) / 16 = (x : Nat) / 16 := by omega
    have ey : 16 * ((y : Nat) / 16) / 16 = (y : Nat) / 16 := by omega
    simp only [Demo03.checkerboardColor, Demo03.tileSize, ex, ey]
  · intro host relativePath s hfail
    rw [demo03_loadTexture_calls]
    simp only [Demo03.sourceImage, hfail]
    rfl

/-! ### The model matrix of demo 06 across the wrap -/

theorem rotationMatrix_no_turn (x y z : ℚ) : rotationMatrix 1 0 x y z = 1 := by
  ext i j
  fin_cases i <;> fin_cases j <;> simp [rotationMatrix, matrixOfRows]

theorem rotationMatrix_half_turn_about_x : rotationMatrix (-1) 0 1 0 0 = halfTurnAboutX := by
  ext i j
  fin_cases i <;> fin_cases j <;> simp [rotationMatrix, halfTurnAboutX, matrixOfRows]

theorem halfTurnAboutX_ne_one : halfTurnAboutX ≠ 1 := by
  intro h
  have h11 := congrFun (congrFun h 1) 1
  simp [halfTurnAboutX, matrixOfRows] at h11
  norm_num at h11

/-- The model matrix a frame of demo 06 stores is the one composed from the angle of the
state. -/
theorem demo06_paintGL_model {M : Type} (ops : QMatrixOps M) (s : Demo06.OpenGLWidget M) :
    (Demo06.paintGL ops s).map (fun r => r.1.model)
      = s.program.map (fun _ => Demo06.modelAt ops s.rotationAngle) := by
  cases hp : s.program with
  | none => simp [Demo06.paintGL, hp]
  | some p => simp [Demo06.paintGL, hp, Demo06.modelAt]

theorem demo06_modelAt_zero : (Demo06.modelAt symbolicOps 0).value = some 1 := by
  have q : quarterTurn ((0 : Int) : ℚ) = some (1, 0) := by norm_num [quarterTurn]
  have q2 : quarterTurn (((0 : Int) : ℚ) / 2.0) = some (1, 0) := by norm_num [quarterTurn]
  simp only [Demo06.modelAt, symbolicOps, MatrixExpr.value, q, q2, rotationMatrix_no_turn]
  norm_num [rotationMatrix_no_turn]

theorem demo06_modelAt_full_turn :
    (Demo06.modelAt symbolicOps 360).value = some halfTurnAboutX := by
  have q : quarterTurn ((360 : Int) : ℚ) = some (1, 0) := by norm_num [quarterTurn]
  have q2 : quarterTurn (((360 : Int) : ℚ) / 2.0) = some (-1, 0) := by norm_num [quarterTurn]
  simp only [Demo06.modelAt, symbolicOps, MatrixExpr.value, q, q2, rotationMatrix_no_turn]
  norm_num [rotationMatrix_half_turn_about_x]

/-- Adding a full turn to the angle keeps the rotation about Y and negates cosine and sine
of the half-angle rotation about X: the model matrix is multiplied by the half turn about
X, for whatever values the cosines and sines have. -/
theorem demo06_modelMatrix_after_full_turn (cosY sinY cosX sinX : ℚ) :
    Demo06.modelMatrix cosY sinY (-cosX) (-sinX)
      = Demo06.modelMatrix cosY sinY cosX sinX * halfTurnAboutX := by
  have h3 : ((3 : Fin 4) : ℕ) = 3 := rfl
  ext i j
  fin_cases i <;> fin_cases j <;>
    simp [Demo06.modelMatrix, rotationMatrix, halfTurnAboutX, matrixOfRows, Matrix.mul_apply,
      Fin.sum_univ_four, h3]

theorem demo06_iterate_tick_program {M : Type} (s : Demo06.OpenGLWidget M) (n : Nat) :
    ((fun t => (Demo06.updateAnimation t).1)^[n] s).program = s.program := by
  induction n with
  | zero => rfl
  | succ n ih => rw [Function.iterate_succ_apply', ← ih]; rfl

/-- The angle and the model matrix of the frame drawn by a widget, in exact arithmetic. -/
theorem demo06_frame_model (s : Demo06.OpenGLWidget MatrixExpr) :
    (Demo06.paintGL symbolicOps s).map (fun r => (r.1.rotationAngle, r.1.model.value))
      = s.program.map
          (fun _ => (s.rotationAngle, (Demo06.modelAt symbolicOps s.rotationAngle).value)) := by
  cases hp : s.program with
  | none => simp [Demo06.paintGL, hp]
  | some p => simp [Demo06.paintGL, hp, Demo06.modelAt]

/-- The frame drawn after `n` ticks shows the model matrix of the angle reached. -/
theorem demo06_frame_after_ticks (s : Demo06.OpenGLWidget MatrixExpr)
    (p : QOpenGLShaderProgram) (hp : s.program = some p) (n : Nat) (a : Int)
    (ha : ((fun t => (Demo06.updateAnimation t).1)^[n] s).rotationAngle = a) :
    (Demo06.run symbolicOps (List.replicate n Event.tick) s).bind
        (fun t => (Demo06.paintGL symbolicOps t).map
          (fun r => (r.1.rotationAngle, r.1.model.value)))
      = some (a, (Demo06.modelAt symbolicOps a).value) := by
  rw [demo06_run_ticks]
  simp only [Option.some_bind]
  rw [demo06_frame_model, demo06_iterate_tick_program, hp, ha]
  rfl

/-- C20, evaluated where it fails.  In demo 06 the frame drawn at `rotationAngle` 0 (right
after `initializeGL`) stores the identity as model matrix, and the frame drawn at
`rotationAngle` 360 (after 360 ticks) stores the half turn about X: the rotation about Y
has come round, the rotation by half the angle about X has not.  The model matrices at
t = 0 and t + 360 differ. -/
theorem c20_demo06_model_matrix_differs_after_full_turn :
    ((Demo06.run symbolicOps (List.replicate 0 Event.tick)
        (Demo06.initializeGL ShaderBuild.success emptyHost 1
          (Demo06.OpenGLWidget.OpenGLWidget symbolicOps)).1).bind
        (fun s => (Demo06.paintGL symbolicOps s).map
          (fun r => (r.1.rotationAngle, r.1.model.value)))
      = some (0, some 1)) ∧
    ((Demo06.run symbolicOps (List.replicate 360 Event.tick)
        (Demo06.initializeGL ShaderBuild.success emptyHost 1
          (Demo06.OpenGLWidget.OpenGLWidget symbolicOps)).1).bind
        (fun s => (Demo06.paintGL symbolicOps s).map
          (fun r => (r.1.rotationAngle, r.1.model.value)))
      = some (360, some halfTurnAboutX)) ∧
    ((Demo06.modelAt symbolicOps 0).value = some 1 ∧
      (Demo06.modelAt symbolicOps 360).value = some halfTurnAboutX) ∧
    halfTurnAboutX ≠ 1 := by
  refine ⟨?_, ?_, ⟨demo06_modelAt_zero, demo06_modelAt_full_turn⟩, halfTurnAboutX_ne_one⟩
  · have h0 : ((fun t => (Demo06.updateAnimation t).1)^[0]
        (Demo06.initializeGL ShaderBuild.success emptyHost 1
          (Demo06.OpenGLWidget.OpenGLWidget symbolicOps)).1).rotationAngle = 0 := rfl
    rw [demo06_frame_after_ticks _ ⟨true⟩ rfl 0 0 h0, demo06_modelAt_zero]
  · have ha : ((fun t => (Demo06.updateAnimation t).1)^[360]
        (Demo06.initializeGL ShaderBuild.success emptyHost 1
          (Demo06.OpenGLWidget.OpenGLWidget symbolicOps)).1).rotationAngle = 360 := by
      rw [demo06_iterate_tick_from_zero _ rfl 360]
      decide
    rw [demo06_frame_after_ticks _ ⟨true⟩ rfl 360 360 ha, demo06_modelAt_full_turn]

/-! ### The cubes of demos 04 and 05 -/

/-- C21. The indexed cube of demo 05 is the unindexed cube of demo 04.  Demo 05 has 12
index triples over 8 records, demo 04 has 36 records, and for every k in 0..11 the three
records (position and colour) of the k-th triangle of demo 04 are those of the k-th index
triple of demo 05 up to a cyclic rotation, which keeps the winding. -/
theorem c21_indexed_cube_draws_the_unindexed_cube :
    ((triangles Demo05.indices).length = 12 ∧
      vertexCount Demo05.vertices Demo05.stride = 8 ∧
      vertexCount Demo04.vertices Demo04.stride = 3 * 12) ∧
    ∀ k : Fin 12,
      Demo04.triangleRecords k ∈ cyclicRotations (Demo05.triangleRecords k) := by
  refine ⟨⟨by decide, by decide, demo04_vertexCount⟩, ?_⟩
  intro k
  fin_cases k
  · exact List.mem_cons_self _ _
  · exact List.mem_cons_of_mem _ (List.mem_cons_self _ _)
  · exact List.mem_cons_self _ _
  · exact List.mem_cons_of_mem _ (List.mem_cons_self _ _)
  · exact List.mem_cons_self _ _
  · exact List.mem_cons_of_mem _ (List.mem_cons_self _ _)
  · exact List.mem_cons_self _ _
  · exact List.mem_cons_of_mem _ (List.mem_cons_self _ _)
  · exact List.mem_cons_self _ _
  · exact List.mem_cons_of_mem _ (List.mem_cons_self _ _)
  · exact List.mem_cons_self _ _
  · exact List.mem_cons_of_mem _ (List.mem_cons_self _ _)

/-! ### Texture orientation and winding of the cube of demo 06 -/

/-- C22. No face texture of demo 06 is mirrored when seen from outside.  On each face i the
four vertex records 4i .. 4i+3 carry the texture corners (0,0), (1,0), (1,1), (0,1), one
each; every one of the four positions is the position at (0,0) plus u times the
u-direction plus v times the v-direction; and the cross product of the u-direction with
the v-direction is the outward unit normal of the plane of face i. -/
theorem c22_face_textures_not_mirrored (i : Fin 6) :
    ∃ v00 v10 v11 v01 : Nat,
      [v00, v10, v11, v01].Perm (List.range' (4 * i) 4) ∧
      Demo06.uv v00 = (0, 0) ∧ Demo06.uv v10 = (1, 0) ∧
      Demo06.uv v11 = (1, 1) ∧ Demo06.uv v01 = (0, 1) ∧
      (∀ w ∈ [v00, v10, v11, v01], Demo06.position w
        = affinePoint (Demo06.position v00)
            (sub3 (Demo06.position v10) (Demo06.position v00))
            (sub3 (Demo06.position v01) (Demo06.position v00)) (Demo06.uv w)) ∧
      cross3 (sub3 (Demo06.position v10) (Demo06.position v00))
          (sub3 (Demo06.position v01) (Demo06.position v00))
        = outwardNormal (Demo06.facePlanes.getD i (Axis.X, true)) := by
  obtain ⟨p0, p1, p2, p3, p4, p5, p6, p7, p8, p9, p10, p11, p12, p13, p14, p15, p16, p17, p18, p19, p20, p21, p22, p23⟩ := demo06_position_facts
  obtain ⟨t0, t1, t2, t3, t4, t5, t6, t7, t8, t9, t10, t11, t12, t13, t14, t15, t16, t17, t18, t19, t20, t21, t22, t23⟩ := demo06_uv_facts
  fin_cases i
  · refine ⟨0, 1, 2, 3, by decide, t0, t1, t2, t3, ?_, ?_⟩
    · intro w hw
      simp only [List.mem_cons, List.mem_singleton, List.not_mem_nil, or_false] at hw
      rcases hw with rfl | rfl | rfl | rfl <;>
        simp only [affinePoint, sub3, p0, p1, p2, p3, p4, p5, p6, p7, p8, p9, p10, p11, p12, p13, p14, p15, p16, p17, p18, p19, p20, p21, p22, p23, t0, t1, t2, t3, t4, t5, t6, t7, t8, t9, t10, t11, t12, t13, t14, t15, t16, t17, t18, t19, t20, t21, t22, t23] <;>
        norm_num
    · simp only [cross3, sub3, outwardNormal, Demo06.facePlanes, p0, p1, p2, p3, p4, p5, p6, p7, p8, p9, p10, p11, p12, p13, p14, p15, p16, p17, p18, p19, p20, p21, p22, p23]
      norm_num
  · refine ⟨5, 4, 7, 6, by decide, t5, t4, t7, t6, ?_, ?_⟩
    · intro w hw
      simp only [List.mem_cons, List.mem_singleton, List.not_mem_nil, or_false] at hw
      rcases hw with rfl | rfl | rfl | rfl <;>
        simp only [affinePoint, sub3, p0, p1, p2, p3, p4, p5, p6, p7, p8, p9, p10, p11, p12, p13, p14, p15, p16, p17, p18, p19, p20, p21, p22, p23, t0, t1, t2, t3, t4, t5, t6, t7, t8, t9, t10, t11, t12, t13, t14, t15, t16, t17, t18, t19, t20, t21, t22, t23] <;>
        norm_num
    · simp only [cross3, sub3, outwardNormal, Demo06.facePlanes, p0, p1, p2, p3, p4, p5, p6, p7, p8, p9, p10, p11, p12, p13, p14, p15, p16, p17, p18, p19, p20, p21, p22, p23]
      norm_num
  · refine ⟨8, 9, 10, 11, by decide, t8, t9, t10, t11, ?_, ?_⟩
    · intro w hw
      simp only [List.mem_cons, List.mem_singleton, List.not_mem_nil, or_false] at hw
      rcases hw with rfl | rfl | rfl | rfl <;>
        simp only [affinePoint, sub3, p0, p1, p2, p3, p4, p5, p6, p7, p8, p9, p10, p11, p12, p13, p14, p15, p16, p17, p18, p19, p20, p21, p22, p23, t0, t1, t2, t3, t4, t5, t6, t7, t8, t9, t10, t11, t12, t13, t14, t15, t16, t17, t18, t19, t20, t21, t22, t23] <;>
        norm_num
    · simp only [cross3, sub3, outwardNormal, Demo06.facePlanes, p0, p1, p2, p3, p4, p5, p6, p7, p8, p9, p10, p11, p12, p13, p14, p15, p16, p17, p18, p19, p20, p21, p22, p23]
      norm_num
  · refine ⟨12, 13, 14, 15, by decide, t12, t13, t14, t15, ?_, ?_⟩
    · intro w hw
      simp only [List.mem_cons, List.mem_singleton, List.not_mem_nil, or_false] at hw
      rcases hw with rfl | rfl | rfl | rfl <;>
        simp only [affinePoint, sub3, p0, p1, p2, p3, p4, p5, p6, p7, p8, p9, p10, p11, p12, p13, p14, p15, p16, p17, p18, p19, p20, p21, p22, p23, t0, t1, t2, t3, t4, t5, t6, t7, t8, t9, t10, t11, t12, t13, t14, t15, t16, t17, t18, t19, t20, t21, t22, t23] <;>
        norm_num
    · simp only [cross3, sub3, outwardNormal, Demo06.facePlanes, p0, p1, p2, p3, p4, p5, p6, p7, p8, p9, p10, p11, p12, p13, p14, p15, p16, p17, p18, p19, p20, p21, p22, p23]
      norm_num
  · refine ⟨16, 17, 18, 19, by decide, t16, t17, t18, t19, ?_, ?_⟩
    · intro w hw
      simp only [List.mem_cons, List.mem_singleton, List.not_mem_nil, or_false] at hw
      rcases hw with rfl | rfl | rfl | rfl <;>
        simp only [affinePoint, sub3, p0, p1, p2, p3, p4, p5, p6, p7, p8, p9, p10, p11, p12, p13, p14, p15, p16, p17, p18, p19, p20, p21, p22, p23, t0, t1, t2, t3, t4, t5, t6, t7, t8, t9, t10, t11, t12, t13, t14, t15, t16, t17, t18, t19, t20, t21, t22, t23] <;>
        norm_num
    · simp only [cross3, sub3, outwardNormal, Demo06.facePlanes, p0, p1, p2, p3, p4, p5, p6, p7, p8, p9, p10, p11, p12, p13, p14, p15, p16, p17, p18, p19, p20, p21, p22, p23]
      norm_num
  · refine ⟨20, 21, 22, 23, by decide, t20, t21, t22, t23, ?_, ?_⟩
    · intro w hw
      simp only [List.mem_cons, List.mem_singleton, List.not_mem_nil, or_false] at hw
      rcases hw with rfl | rfl | rfl | rfl <;>
        simp only [affinePoint, sub3, p0, p1, p2, p3, p4, p5, p6, p7, p8, p9, p10, p11, p12, p13, p14, p15, p16, p17, p18, p19, p20, p21, p22, p23, t0, t1, t2, t3, t4, t5, t6, t7, t8, t9, t10, t11, t12, t13, t14, t15, t16, t17, t18, t19, t20, t21, t22, t23] <;>
        norm_num
    · simp only [cross3, sub3, outwardNormal, Demo06.facePlanes, p0, p1, p2, p3, p4, p5, p6, p7, p8, p9, p10, p11, p12, p13, p14, p15, p16, p17, p18, p19, p20, p21, p22, p23]
      norm_num

/-- The normals of the 12 triangles of demo 06, in the order of `cubeIndices`. -/
theorem demo06_triangle_normals :
    (List.range 12).map Demo06.triangleNormal
      = [(0, 0, 1), (0, 0, 1), (0, 0, 1), (0, 0, 1), (0, 1, 0), (0, 1, 0),
        (0, -1, 0), (0, -1, 0), (1, 0, 0), (1, 0, 0), (-1, 0, 0), (-1, 0, 0)] := by
  obtain ⟨p0, p1, p2, p3, p4, p5, p6, p7, p8, p9, p10, p11, p12, p13, p14, p15, p16, p17, p18, p19, p20, p21, p22, p23⟩ := demo06_position_facts
  have hr : List.range 12 = [0, 1, 2, 3, 4, 5, 6, 7, 8, 9, 10, 11] := by decide
  have ht : triangles Demo06.cubeIndices = [(0, 1, 2), (2, 3, 0), (4, 5, 6), (6, 7, 4),
      (8, 9, 10), (10, 11, 8), (12, 13, 14), (14, 15, 12), (16, 17, 18), (18, 19, 16),
      (20, 21, 22), (22, 23, 20)] := by decide
  simp only [hr, List.map, Demo06.triangleNormal, ht, List.getD_cons_zero,
    List.getD_cons_succ, cross3, sub3, p0, p1, p2, p3, p4, p5, p6, p7, p8, p9, p10, p11, p12, p13, p14, p15, p16, p17, p18, p19, p20, p21, p22, p23]
  norm_num

/-- The outward normals of the faces the 12 triangles of demo 06 belong to: triangle k
belongs to face k / 2. -/
theorem demo06_face_normals :
    (List.range 12).map (fun k => outwardNormal (Demo06.facePlanes.getD (k / 2) (Axis.X, true)))
      = [(0, 0, 1), (0, 0, 1), (0, 0, -1), (0, 0, -1), (0, 1, 0), (0, 1, 0),
        (0, -1, 0), (0, -1, 0), (1, 0, 0), (1, 0, 0), (-1, 0, 0), (-1, 0, 0)] := by
  rfl

/-- In demo 05 all 12 triangles wind outward: the normal of triangle k is the outward
normal of the face named for it. -/
theorem demo05_triangles_wind_outward :
    (List.range 12).map Demo05.triangleNormal
      = (List.range 12).map
          (fun k => outwardNormal (Demo05.facePlanes.getD (k / 2) (Axis.X, true))) := by
  have hp : (List.range 8).map Demo05.position = [
      (-1/2, -1/2, 1/2), (1/2, -1/2, 1/2), (1/2, 1/2, 1/2), (-1/2, 1/2, 1/2),
      (-1/2, -1/2, -1/2), (1/2, -1/2, -1/2), (1/2, 1/2, -1/2), (-1/2, 1/2, -1/2)] := by
    have hr : List.range 8 = [0, 1, 2, 3, 4, 5, 6, 7] := by decide
    rw [hr]
    norm_num [Demo05.position, attributeValue, Demo05.vertices, Demo05.stride, sizeofFloat]
  have hr8 : List.range 8 = [0, 1, 2, 3, 4, 5, 6, 7] := by decide
  simp only [hr8, List.map, List.cons.injEq, and_true] at hp
  obtain ⟨q0, q1, q2, q3, q4, q5, q6, q7⟩ := hp
  have hr : List.range 12 = [0, 1, 2, 3, 4, 5, 6, 7, 8, 9, 10, 11] := by decide
  have ht : triangles Demo05.indices = [(0, 1, 2), (0, 2, 3), (5, 4, 7), (5, 7, 6),
      (1, 5, 6), (1, 6, 2), (4, 0, 3), (4, 3, 7), (3, 2, 6), (3, 6, 7), (4, 5, 1),
      (4, 1, 0)] := by decide
  have hn : (List.range 12).map
      (fun k => outwardNormal (Demo05.facePlanes.getD (k / 2) (Axis.X, true)))
      = [(0, 0, 1), (0, 0, 1), (0, 0, -1), (0, 0, -1), (1, 0, 0), (1, 0, 0),
        (-1, 0, 0), (-1, 0, 0), (0, 1, 0), (0, 1, 0), (0, -1, 0), (0, -1, 0)] := by
    rfl
  rw [hn]
  simp only [hr, List.map, Demo05.triangleNormal, ht, List.getD_cons_zero,
    List.getD_cons_succ, cross3, sub3, q0, q1, q2, q3, q4, q5, q6, q7]
  norm_num

/-- C23, evaluated where it fails.  The third and fourth triangles of `cubeIndices`,
(4, 5, 6) and (6, 7, 4), are the two triangles of face 1, the -Z face, whose outward
normal is (0, 0, -1); the cross product of their edges is (0, 0, 1): both are clockwise
when seen from outside, so their normal does not point along the outward normal.  The
other ten triangles wind outward (`demo06_triangle_normals`, `demo06_face_normals`), and
so do all twelve of demo 05 (`demo05_triangles_wind_outward`). -/
theorem c23_demo06_back_face_winds_inward :
    ((triangles Demo06.cubeIndices).getD 2 (0, 0, 0) = (4, 5, 6) ∧
      (triangles Demo06.cubeIndices).getD 3 (0, 0, 0) = (6, 7, 4) ∧
      Demo06.faceVertices 1 = [4, 5, 6, 6, 7, 4]) ∧
    (Demo06.facePlanes.getD 1 (Axis.X, true) = (Axis.Z, false) ∧
      outwardNormal (Axis.Z, false) = (0, 0, -1)) ∧
    (Demo06.triangleNormal 2 = (0, 0, 1) ∧ Demo06.triangleNormal 3 = (0, 0, 1)) ∧
    (¬ pointsAlong (Demo06.triangleNormal 2)
        (outwardNormal (Demo06.facePlanes.getD 1 (Axis.X, true))) ∧
      ¬ pointsAlong (Demo06.triangleNormal 3)
        (outwardNormal (Demo06.facePlanes.getD 1 (Axis.X, true)))) := by
  have hn := demo06_triangle_normals
  have hr : List.range 12 = [0, 1, 2, 3, 4, 5, 6, 7, 8, 9, 10, 11] := by decide
  simp only [hr, List.map, List.cons.injEq, and_true] at hn
  obtain ⟨_, _, n2, n3, _⟩ := hn
  have hplane : outwardNormal (Demo06.facePlanes.getD 1 (Axis.X, true)) = (0, 0, -1) := rfl
  refine ⟨⟨by decide, by decide, by decide⟩, ⟨rfl, rfl⟩, ⟨n2, n3⟩, ?_, ?_⟩
  · rintro ⟨c, hc, h⟩
    rw [n2, hplane] at h
    simp only [Prod.mk.injEq] at h
    linarith [h.2.2]
  · rintro ⟨c, hc, h⟩
    rw [n3, hplane] at h
    simp only [Prod.mk.injEq] at h
    linarith [h.2.2]

end QtOpenglTutorial
